import Mathlib

/-!
Shallow embedding of the saga / event-bus core of the bookstore order
management repository (Rust), together with proofs about the claims of its
specification.

Modelling conventions:
* UUIDs (`uuid::Uuid`) are modelled as natural numbers; `0` plays the role of
  the nil UUID.  Timestamps (`DateTime<Utc>`, `SystemTime`) are modelled as
  naturals where they are kept at all, and dropped where no code path reads
  them.
* `Uuid::new_v4()` / `Utc::now()` draws are nondeterministic inputs of the
  program; every function of the model that performs such a draw receives the
  drawn values explicitly (a `MetaFresh` argument), or consumes them from a
  counter threaded through the saga state.
* Rust methods taking `&mut self` and returning `Result<(), E>` are modelled
  as functions returning both the `Except` result and the post-call value of
  `self`; every early-return error path of the source returns the receiver
  unchanged, and the model mirrors that literally.
* `u32` quantities are modelled as `Nat`; the inventory counter
  `quantity_on_hand` is modelled as `Int` so that its nonnegativity is a
  provable invariant rather than a typing artefact.  The (debug-aborting)
  `u32` overflow of `release` is not modelled.
-/

/-- UUIDs of the source, abstracted to naturals; 0 is the nil UUID. -/
abbrev Uuid := Nat

/-- DomainError of src/domain/error.rs. -/
inductive DomainError where
  | InvalidOrderState (msg : String)
  | InsufficientInventory
  | InvalidQuantity
  | InvalidAddress (msg : String)
  | OrderValidation (msg : String)
  | CurrencyMismatch
  | InvalidValue (msg : String)
  deriving DecidableEq, Repr

/-- Display impl of DomainError. -/
def DomainError.display : DomainError → String
  | .InvalidOrderState msg => "Invalid order state: " ++ msg
  | .InsufficientInventory => "Insufficient inventory"
  | .InvalidQuantity => "Invalid quantity"
  | .InvalidAddress msg => "Invalid address: " ++ msg
  | .OrderValidation msg => "Order validation failed: " ++ msg
  | .CurrencyMismatch => "Currency mismatch"
  | .InvalidValue msg => "Invalid value: " ++ msg

/-- Currency of src/domain/model/value_objects.rs (JPY only). -/
inductive Currency where
  | JPY
  deriving DecidableEq, Repr

/-- Money value object: integer minor-unit amount plus currency tag. -/
structure Money where
  amount : Int
  currency : Currency
  deriving DecidableEq, Repr

/-- Money::jpy. -/
def Money.jpy (amount : Int) : Money := ⟨amount, .JPY⟩

/-- Money::add; fails on mismatched currencies. -/
def Money.add (m other : Money) : Except DomainError Money :=
  if m.currency ≠ other.currency then .error .CurrencyMismatch
  else .ok ⟨m.amount + other.amount, m.currency⟩

/-- Money::multiply by a u32 factor. -/
def Money.multiply (m : Money) (factor : Nat) : Money :=
  ⟨m.amount * (factor : Int), m.currency⟩

/-- OrderLine value object. -/
structure OrderLine where
  book_id : Uuid
  quantity : Nat
  unit_price : Money
  deriving DecidableEq, Repr

/-- OrderLine::new; the quantity must be at least 1. -/
def OrderLine.new (book_id : Uuid) (quantity : Nat) (unit_price : Money) :
    Except DomainError OrderLine :=
  if quantity == 0 then .error .InvalidQuantity
  else .ok ⟨book_id, quantity, unit_price⟩

/-- OrderLine::subtotal = unit_price * quantity. -/
def OrderLine.subtotal (l : OrderLine) : Money := l.unit_price.multiply l.quantity

/-- OrderLine::increase_quantity. -/
def OrderLine.increase_quantity (l : OrderLine) (additional_quantity : Nat) :
    Except DomainError OrderLine :=
  if additional_quantity == 0 then .error .InvalidQuantity
  else .ok { l with quantity := l.quantity + additional_quantity }

/-- ShippingAddress value object. -/
structure ShippingAddress where
  postal_code : String
  prefecture : String
  city : String
  street : String
  building : Option String
  deriving DecidableEq, Repr

/-- ShippingAddress::is_valid_postal_code: 7 ascii digits. -/
def ShippingAddress.is_valid_postal_code (postal_code : String) : Bool :=
  postal_code.length == 7 && postal_code.toList.all Char.isDigit

/-- ShippingAddress::new with the postal-code and non-empty-field validation. -/
def ShippingAddress.new (postal_code prefecture city street : String)
    (building : Option String) : Except DomainError ShippingAddress :=
  if ¬ ShippingAddress.is_valid_postal_code postal_code then
    .error (.InvalidAddress "postal code must be 7 digits")
  else if prefecture.trim.isEmpty then
    .error (.InvalidAddress "prefecture must not be empty")
  else if city.trim.isEmpty then
    .error (.InvalidAddress "city must not be empty")
  else if street.trim.isEmpty then
    .error (.InvalidAddress "street must not be empty")
  else .ok ⟨postal_code, prefecture, city, street, building⟩

/-- OrderStatus of the Order aggregate. -/
inductive OrderStatus where
  | Pending
  | Confirmed
  | Shipped
  | Delivered
  | Cancelled
  deriving DecidableEq, Repr

/-- EventMetadata attached to every domain event.  `occurred_at` models the
DateTime; `additional_metadata` models the HashMap of string attributes as an
insertion-ordered association list. -/
structure EventMetadata where
  event_id : Uuid
  occurred_at : Nat
  correlation_id : Uuid
  event_version : Nat
  additional_metadata : List (String × String)
  deriving DecidableEq, Repr

/-- One draw of the nondeterministic inputs of EventMetadata::new:
Uuid::new_v4 for the event id, Utc::now, and Uuid::new_v4 for the
correlation id. -/
structure MetaFresh where
  event_id : Uuid
  occurred_at : Nat
  correlation_id : Uuid
  deriving DecidableEq, Repr

/-- EventMetadata::new (fresh event id, timestamp and correlation id,
version 1, no attributes). -/
def EventMetadata.new (fresh : MetaFresh) : EventMetadata :=
  ⟨fresh.event_id, fresh.occurred_at, fresh.correlation_id, 1, []⟩

/-- EventMetadata::with_correlation_id: fresh event id and timestamp but the
given correlation id. -/
def EventMetadata.with_correlation_id (fresh : MetaFresh) (correlation_id : Uuid) :
    EventMetadata :=
  ⟨fresh.event_id, fresh.occurred_at, correlation_id, 1, []⟩

/-- EventMetadata::with_metadata: insert an attribute. -/
def EventMetadata.with_metadata (m : EventMetadata) (key value : String) :
    EventMetadata :=
  { m with additional_metadata := m.additional_metadata ++ [(key, value)] }

/-- OrderConfirmed event payload. -/
structure OrderConfirmed where
  metadata : EventMetadata
  order_id : Uuid
  customer_id : Uuid
  order_lines : List OrderLine
  total_amount : Money
  deriving DecidableEq, Repr

/-- OrderConfirmed::new. -/
def OrderConfirmed.new (fresh : MetaFresh) (order_id customer_id : Uuid)
    (order_lines : List OrderLine) (total_amount : Money) : OrderConfirmed :=
  ⟨(EventMetadata.new fresh
      |>.with_metadata "aggregate_type" "Order"
      |>.with_metadata "aggregate_id" (toString order_id)),
    order_id, customer_id, order_lines, total_amount⟩

/-- OrderCancelled event payload. -/
structure OrderCancelled where
  metadata : EventMetadata
  order_id : Uuid
  customer_id : Uuid
  order_lines : List OrderLine
  deriving DecidableEq, Repr

/-- OrderCancelled::new. -/
def OrderCancelled.new (fresh : MetaFresh) (order_id customer_id : Uuid)
    (order_lines : List OrderLine) : OrderCancelled :=
  ⟨(EventMetadata.new fresh
      |>.with_metadata "aggregate_type" "Order"
      |>.with_metadata "aggregate_id" (toString order_id)),
    order_id, customer_id, order_lines⟩

/-- OrderCancelled::with_correlation_id. -/
def OrderCancelled.with_correlation_id (fresh : MetaFresh)
    (order_id customer_id : Uuid) (order_lines : List OrderLine)
    (correlation_id : Uuid) : OrderCancelled :=
  ⟨(EventMetadata.with_correlation_id fresh correlation_id
      |>.with_metadata "aggregate_type" "Order"
      |>.with_metadata "aggregate_id" (toString order_id)),
    order_id, customer_id, order_lines⟩

/-- OrderShipped event payload. -/
structure OrderShipped where
  metadata : EventMetadata
  order_id : Uuid
  shipping_address : ShippingAddress
  deriving DecidableEq, Repr

/-- OrderShipped::new. -/
def OrderShipped.new (fresh : MetaFresh) (order_id : Uuid)
    (shipping_address : ShippingAddress) : OrderShipped :=
  ⟨(EventMetadata.new fresh
      |>.with_metadata "aggregate_type" "Order"
      |>.with_metadata "aggregate_id" (toString order_id)),
    order_id, shipping_address⟩

/-- OrderShipped::with_correlation_id. -/
def OrderShipped.with_correlation_id (fresh : MetaFresh) (order_id : Uuid)
    (shipping_address : ShippingAddress) (correlation_id : Uuid) : OrderShipped :=
  ⟨(EventMetadata.with_correlation_id fresh correlation_id
      |>.with_metadata "aggregate_type" "Order"
      |>.with_metadata "aggregate_id" (toString order_id)),
    order_id, shipping_address⟩

/-- OrderDelivered event payload. -/
structure OrderDelivered where
  metadata : EventMetadata
  order_id : Uuid
  deriving DecidableEq, Repr

/-- OrderDelivered::new. -/
def OrderDelivered.new (fresh : MetaFresh) (order_id : Uuid) : OrderDelivered :=
  ⟨(EventMetadata.new fresh
      |>.with_metadata "aggregate_type" "Order"
      |>.with_metadata "aggregate_id" (toString order_id)),
    order_id⟩

/-- OrderDelivered::with_correlation_id. -/
def OrderDelivered.with_correlation_id (fresh : MetaFresh) (order_id : Uuid)
    (correlation_id : Uuid) : OrderDelivered :=
  ⟨(EventMetadata.with_correlation_id fresh correlation_id
      |>.with_metadata "aggregate_type" "Order"
      |>.with_metadata "aggregate_id" (toString order_id)),
    order_id⟩

/-- InventoryReserved event payload. -/
structure InventoryReserved where
  metadata : EventMetadata
  order_id : Uuid
  order_lines : List OrderLine
  deriving DecidableEq, Repr

/-- InventoryReserved::with_correlation_id. -/
def InventoryReserved.with_correlation_id (fresh : MetaFresh) (order_id : Uuid)
    (order_lines : List OrderLine) (correlation_id : Uuid) : InventoryReserved :=
  ⟨(EventMetadata.with_correlation_id fresh correlation_id
      |>.with_metadata "aggregate_type" "Inventory"
      |>.with_metadata "related_order_id" (toString order_id)),
    order_id, order_lines⟩

/-- InventoryReleased event payload. -/
structure InventoryReleased where
  metadata : EventMetadata
  order_id : Uuid
  order_lines : List OrderLine
  deriving DecidableEq, Repr

/-- InventoryReleased::with_correlation_id. -/
def InventoryReleased.with_correlation_id (fresh : MetaFresh) (order_id : Uuid)
    (order_lines : List OrderLine) (correlation_id : Uuid) : InventoryReleased :=
  ⟨(EventMetadata.with_correlation_id fresh correlation_id
      |>.with_metadata "aggregate_type" "Inventory"
      |>.with_metadata "related_order_id" (toString order_id)),
    order_id, order_lines⟩

/-- InventoryReservationFailed compensation event payload. -/
structure InventoryReservationFailed where
  metadata : EventMetadata
  order_id : Uuid
  order_lines : List OrderLine
  failure_reason : String
  original_event_id : Uuid
  deriving DecidableEq, Repr

/-- InventoryReservationFailed::with_correlation_id. -/
def InventoryReservationFailed.with_correlation_id (fresh : MetaFresh)
    (order_id : Uuid) (order_lines : List OrderLine) (failure_reason : String)
    (original_event_id correlation_id : Uuid) : InventoryReservationFailed :=
  ⟨(EventMetadata.with_correlation_id fresh correlation_id
      |>.with_metadata "aggregate_type" "Inventory"
      |>.with_metadata "related_order_id" (toString order_id)
      |>.with_metadata "compensation_event" "true"),
    order_id, order_lines, failure_reason, original_event_id⟩

/-- ShippingFailed compensation event payload. -/
structure ShippingFailed where
  metadata : EventMetadata
  order_id : Uuid
  failure_reason : String
  original_event_id : Uuid
  deriving DecidableEq, Repr

/-- ShippingFailed::with_correlation_id. -/
def ShippingFailed.with_correlation_id (fresh : MetaFresh) (order_id : Uuid)
    (failure_reason : String) (original_event_id correlation_id : Uuid) :
    ShippingFailed :=
  ⟨(EventMetadata.with_correlation_id fresh correlation_id
      |>.with_metadata "aggregate_type" "Order"
      |>.with_metadata "aggregate_id" (toString order_id)
      |>.with_metadata "compensation_event" "true"),
    order_id, failure_reason, original_event_id⟩

/-- DeliveryFailed compensation event payload. -/
structure DeliveryFailed where
  metadata : EventMetadata
  order_id : Uuid
  failure_reason : String
  original_event_id : Uuid
  deriving DecidableEq, Repr

/-- DeliveryFailed::with_correlation_id. -/
def DeliveryFailed.with_correlation_id (fresh : MetaFresh) (order_id : Uuid)
    (failure_reason : String) (original_event_id correlation_id : Uuid) :
    DeliveryFailed :=
  ⟨(EventMetadata.with_correlation_id fresh correlation_id
      |>.with_metadata "aggregate_type" "Order"
      |>.with_metadata "aggregate_id" (toString order_id)
      |>.with_metadata "compensation_event" "true"),
    order_id, failure_reason, original_event_id⟩

/-- CompensationResult of SagaCompensationCompleted. -/
inductive CompensationResult where
  | Success
  | PartialSuccess (failed_steps : List String)
  | Failed (error_message : String)
  deriving DecidableEq, Repr

/-- SagaCompensationStarted event payload. -/
structure SagaCompensationStarted where
  metadata : EventMetadata
  saga_id : Uuid
  failed_step : String
  failure_reason : String
  compensation_steps : List String
  deriving DecidableEq, Repr

/-- SagaCompensationStarted::new. -/
def SagaCompensationStarted.new (fresh : MetaFresh) (saga_id : Uuid)
    (failed_step failure_reason : String) (compensation_steps : List String) :
    SagaCompensationStarted :=
  ⟨(EventMetadata.with_correlation_id fresh saga_id
      |>.with_metadata "aggregate_type" "Saga"
      |>.with_metadata "saga_id" (toString saga_id)
      |>.with_metadata "compensation_event" "true"),
    saga_id, failed_step, failure_reason, compensation_steps⟩

/-- SagaCompensationCompleted event payload. -/
structure SagaCompensationCompleted where
  metadata : EventMetadata
  saga_id : Uuid
  compensated_steps : List String
  compensation_result : CompensationResult
  deriving DecidableEq, Repr

/-- SagaCompensationCompleted::new. -/
def SagaCompensationCompleted.new (fresh : MetaFresh) (saga_id : Uuid)
    (compensated_steps : List String) (compensation_result : CompensationResult) :
    SagaCompensationCompleted :=
  ⟨(EventMetadata.with_correlation_id fresh saga_id
      |>.with_metadata "aggregate_type" "Saga"
      |>.with_metadata "saga_id" (toString saga_id)
      |>.with_metadata "compensation_event" "true"),
    saga_id, compensated_steps, compensation_result⟩

/-- DomainEvent: the closed tagged union of src/domain/event.rs. -/
inductive DomainEvent where
  | OrderConfirmed (e : OrderConfirmed)
  | OrderCancelled (e : OrderCancelled)
  | OrderShipped (e : OrderShipped)
  | OrderDelivered (e : OrderDelivered)
  | InventoryReserved (e : InventoryReserved)
  | InventoryReleased (e : InventoryReleased)
  | InventoryReservationFailed (e : InventoryReservationFailed)
  | ShippingFailed (e : ShippingFailed)
  | DeliveryFailed (e : DeliveryFailed)
  | SagaCompensationStarted (e : SagaCompensationStarted)
  | SagaCompensationCompleted (e : SagaCompensationCompleted)
  deriving DecidableEq, Repr

/-- DomainEvent::metadata. -/
def DomainEvent.metadata : DomainEvent → EventMetadata
  | .OrderConfirmed e => e.metadata
  | .OrderCancelled e => e.metadata
  | .OrderShipped e => e.metadata
  | .OrderDelivered e => e.metadata
  | .InventoryReserved e => e.metadata
  | .InventoryReleased e => e.metadata
  | .InventoryReservationFailed e => e.metadata
  | .ShippingFailed e => e.metadata
  | .DeliveryFailed e => e.metadata
  | .SagaCompensationStarted e => e.metadata
  | .SagaCompensationCompleted e => e.metadata

/-- DomainEvent::event_type. -/
def DomainEvent.event_type : DomainEvent → String
  | .OrderConfirmed _ => "OrderConfirmed"
  | .OrderCancelled _ => "OrderCancelled"
  | .OrderShipped _ => "OrderShipped"
  | .OrderDelivered _ => "OrderDelivered"
  | .InventoryReserved _ => "InventoryReserved"
  | .InventoryReleased _ => "InventoryReleased"
  | .InventoryReservationFailed _ => "InventoryReservationFailed"
  | .ShippingFailed _ => "ShippingFailed"
  | .DeliveryFailed _ => "DeliveryFailed"
  | .SagaCompensationStarted _ => "SagaCompensationStarted"
  | .SagaCompensationCompleted _ => "SagaCompensationCompleted"

/-- The Order aggregate root (src/domain/model/order.rs). -/
structure Order where
  id : Uuid
  customer_id : Uuid
  order_lines : List OrderLine
  shipping_address : Option ShippingAddress
  status : OrderStatus
  domain_events : List DomainEvent
  deriving DecidableEq, Repr

/-- Order::new: created Pending, no lines, no address, empty event buffer. -/
def Order.new (id customer_id : Uuid) : Order :=
  ⟨id, customer_id, [], none, .Pending, []⟩

/-- Order::reconstruct: rebuild from persisted data; performs no validation. -/
def Order.reconstruct (id customer_id : Uuid) (order_lines : List OrderLine)
    (shipping_address : Option ShippingAddress) (status : OrderStatus) :
    Except DomainError Order :=
  .ok ⟨id, customer_id, order_lines, shipping_address, status, []⟩

/-- Order::take_domain_events: drain the pending-events buffer. -/
def Order.take_domain_events (o : Order) : List DomainEvent × Order :=
  (o.domain_events, { o with domain_events := [] })

deriving instance DecidableEq for Except

/-- The outcome of a `&mut self -> Result<(), DomainError>` method of Order:
the returned result together with the post-call state of the receiver. -/
structure OpOut where
  result : Except DomainError Unit
  order : Order
  deriving DecidableEq, Repr

/-- The body of the order-line merge loop of Order::add_book: increase the
quantity of an existing line for the same book, or append a fresh line. -/
def addBookToLines (lines : List OrderLine) (book_id : Uuid) (quantity : Nat)
    (unit_price : Money) : Except DomainError (List OrderLine) :=
  match lines with
  | [] => (OrderLine.new book_id quantity unit_price).map (fun l => [l])
  | l :: rest =>
    if l.book_id == book_id then
      (l.increase_quantity quantity).map (· :: rest)
    else
      (addBookToLines rest book_id quantity unit_price).map (l :: ·)

/-- Order::add_book.  Emits no domain event. -/
def Order.add_book (o : Order) (book_id : Uuid) (quantity : Nat)
    (unit_price : Money) : OpOut :=
  if quantity == 0 then ⟨.error .InvalidQuantity, o⟩
  else
    match addBookToLines o.order_lines book_id quantity unit_price with
    | .error e => ⟨.error e, o⟩
    | .ok lines => ⟨.ok (), { o with order_lines := lines }⟩

/-- Order::set_shipping_address: always allowed, overwrites, emits no event. -/
def Order.set_shipping_address (o : Order) (address : ShippingAddress) : Order :=
  { o with shipping_address := some address }

/-- Order::calculate_total: subtotal plus a 500 JPY shipping fee waived from
10000 JPY; the unwrap_or fallbacks of the source are kept. -/
def Order.calculate_total (o : Order) : Money :=
  let subtotal := o.order_lines.foldl
    (fun acc line =>
      match acc.add line.subtotal with
      | .ok m => m
      | .error _ => acc)
    (Money.jpy 0)
  let shipping_fee := if subtotal.amount ≥ 10000 then Money.jpy 0 else Money.jpy 500
  match subtotal.add shipping_fee with
  | .ok m => m
  | .error _ => subtotal

/-- Order::confirm.  `fresh` is the metadata draw for the emitted event. -/
def Order.confirm (o : Order) (fresh : MetaFresh) : OpOut :=
  if o.status ≠ .Pending then
    ⟨.error (.InvalidOrderState "only a Pending order can be confirmed"), o⟩
  else if o.order_lines.isEmpty then
    ⟨.error (.OrderValidation "order lines are empty"), o⟩
  else if o.shipping_address.isNone then
    ⟨.error (.OrderValidation "shipping address is not set"), o⟩
  else
    let total_amount := o.calculate_total
    let event := OrderConfirmed.new fresh o.id o.customer_id o.order_lines total_amount
    ⟨.ok (), { o with
        status := .Confirmed,
        domain_events := o.domain_events ++ [DomainEvent.OrderConfirmed event] }⟩

/-- Order::cancel. -/
def Order.cancel (o : Order) (fresh : MetaFresh) : OpOut :=
  match o.status with
  | .Shipped | .Delivered =>
    ⟨.error (.InvalidOrderState "a shipped or delivered order cannot be cancelled"), o⟩
  | .Cancelled =>
    ⟨.error (.InvalidOrderState "the order is already cancelled"), o⟩
  | .Pending | .Confirmed =>
    let event := OrderCancelled.new fresh o.id o.customer_id o.order_lines
    ⟨.ok (), { o with
        status := .Cancelled,
        domain_events := o.domain_events ++ [DomainEvent.OrderCancelled event] }⟩

/-- The outcome of Order::mark_as_shipped: a normal return (result plus
post-call receiver), or the panic of the `expect` on the missing shipping
address of a Confirmed order. -/
inductive ShipOut where
  | ret (result : Except DomainError Unit) (order : Order)
  | panicked
  deriving DecidableEq, Repr

/-- Whether a ShipOut is a normal successful return. -/
def ShipOut.isOk : ShipOut → Bool
  | .ret (.ok _) _ => true
  | _ => false

/-- Order::mark_as_shipped.  On a Confirmed order without a shipping address
the source panics (`expect`); that branch is the `panicked` outcome. -/
def Order.mark_as_shipped (o : Order) (fresh : MetaFresh) : ShipOut :=
  if o.status ≠ .Confirmed then
    .ret (.error (.InvalidOrderState "only a Confirmed order can be marked as shipped")) o
  else
    match o.shipping_address with
    | none => .panicked
    | some shipping_address =>
      let event := OrderShipped.new fresh o.id shipping_address
      .ret (.ok ()) { o with
        status := .Shipped,
        domain_events := o.domain_events ++ [DomainEvent.OrderShipped event] }

/-- Order::mark_as_delivered. -/
def Order.mark_as_delivered (o : Order) (fresh : MetaFresh) : OpOut :=
  if o.status ≠ .Shipped then
    ⟨.error (.InvalidOrderState "only a Shipped order can be marked as delivered"), o⟩
  else
    let event := OrderDelivered.new fresh o.id
    ⟨.ok (), { o with
        status := .Delivered,
        domain_events := o.domain_events ++ [DomainEvent.OrderDelivered event] }⟩

/-- The Inventory aggregate (src/domain/model/inventory.rs).  The u32 counter
quantity_on_hand is modelled as Int so nonnegativity is a provable invariant. -/
structure Inventory where
  book_id : Uuid
  quantity_on_hand : Int
  deriving DecidableEq, Repr

/-- Inventory::new from a u32 quantity. -/
def Inventory.new (book_id : Uuid) (quantity_on_hand : Nat) : Inventory :=
  ⟨book_id, quantity_on_hand⟩

/-- Inventory::has_available_stock. -/
def Inventory.has_available_stock (inv : Inventory) (quantity : Nat) : Bool :=
  inv.quantity_on_hand ≥ (quantity : Int)

/-- The outcome of a mutating Inventory method: result plus post-call state. -/
structure InvOut where
  result : Except DomainError Unit
  inventory : Inventory
  deriving DecidableEq, Repr

/-- Inventory::reserve: fails with InsufficientInventory (no mutation) when
stock is short, otherwise decrements by the requested quantity. -/
def Inventory.reserve (inv : Inventory) (quantity : Nat) : InvOut :=
  if ¬ inv.has_available_stock quantity then
    ⟨.error .InsufficientInventory, inv⟩
  else
    ⟨.ok (), { inv with quantity_on_hand := inv.quantity_on_hand - quantity }⟩

/-- Inventory::release: increments unconditionally and always succeeds. -/
def Inventory.release (inv : Inventory) (quantity : Nat) : InvOut :=
  ⟨.ok (), { inv with quantity_on_hand := inv.quantity_on_hand + quantity }⟩

/-- HandlerError of src/domain/event_bus.rs. -/
inductive HandlerError where
  | ProcessingFailed (msg : String)
  | RepositoryError (msg : String)
  | DomainError (msg : String)
  | TransientError (msg : String)
  | PermanentError (msg : String)
  deriving DecidableEq, Repr

/-- Display impl of HandlerError (thiserror). -/
def HandlerError.display : HandlerError → String
  | .ProcessingFailed msg => "Handler processing failed: " ++ msg
  | .RepositoryError msg => "Repository error: " ++ msg
  | .DomainError msg => "Domain error: " ++ msg
  | .TransientError msg => "Transient error (retryable): " ++ msg
  | .PermanentError msg => "Permanent error (not retryable): " ++ msg

/-- Orders reachable from Order::new through the aggregate methods (successful
calls; a failed call leaves the receiver unchanged, so it reaches nothing
new). -/
inductive Order.Reachable : Order → Prop
  | new (id customer_id : Uuid) : Order.Reachable (Order.new id customer_id)
  | add_book (o : Order) (book_id : Uuid) (quantity : Nat) (unit_price : Money)
      (o2 : Order) : Order.Reachable o →
      o.add_book book_id quantity unit_price = ⟨.ok (), o2⟩ → Order.Reachable o2
  | set_shipping_address (o : Order) (address : ShippingAddress) :
      Order.Reachable o → Order.Reachable (o.set_shipping_address address)
  | confirm (o : Order) (fresh : MetaFresh) (o2 : Order) : Order.Reachable o →
      o.confirm fresh = ⟨.ok (), o2⟩ → Order.Reachable o2
  | cancel (o : Order) (fresh : MetaFresh) (o2 : Order) : Order.Reachable o →
      o.cancel fresh = ⟨.ok (), o2⟩ → Order.Reachable o2
  | mark_as_shipped (o : Order) (fresh : MetaFresh) (o2 : Order) : Order.Reachable o →
      o.mark_as_shipped fresh = .ret (.ok ()) o2 → Order.Reachable o2
  | mark_as_delivered (o : Order) (fresh : MetaFresh) (o2 : Order) : Order.Reachable o →
      o.mark_as_delivered fresh = ⟨.ok (), o2⟩ → Order.Reachable o2

/-- One call in a sequence of reserve/release operations on an Inventory. -/
inductive InvOp where
  | reserve (quantity : Nat)
  | release (quantity : Nat)
  deriving DecidableEq, Repr

/-- Apply one reserve/release call, keeping the post-call state whether or not
the call succeeded. -/
def Inventory.applyOp (inv : Inventory) : InvOp → Inventory
  | .reserve quantity => (inv.reserve quantity).inventory
  | .release quantity => (inv.release quantity).inventory

/-- A JSON value, modelling the serde_json values the EventSerializer works
with.  String rendering and parsing of serde_json are outside the model: the
serializer model produces and consumes parsed values. -/
inductive Json where
  | null
  | bool (b : Bool)
  | num (n : Int)
  | str (s : String)
  | arr (elems : List Json)
  | obj (fields : List (String × Json))

/-- Field access on a JSON object (serde_json Value::get). -/
def Json.getField (j : Json) (key : String) : Option Json :=
  match j with
  | .obj fields => fields.lookup key
  | _ => none

/-- Serde encoding of a u32 / u64 / modelled UUID or timestamp scalar. -/
def encodeNat (n : Nat) : Json := .num (Int.ofNat n)

/-- Decode a nonnegative JSON number. -/
def decodeNat : Json → Option Nat
  | .num (.ofNat n) => some n
  | _ => none

/-- Decode a JSON number. -/
def decodeInt : Json → Option Int
  | .num n => some n
  | _ => none

/-- Decode a JSON string. -/
def decodeStr : Json → Option String
  | .str s => some s
  | _ => none

/-- Serde encoding of the HashMap<String, String> attribute map. -/
def encodeStringPairs (m : List (String × String)) : Json :=
  .obj (m.map fun p => (p.1, .str p.2))

/-- Decode the attribute map. -/
def decodeStringPairs : Json → Option (List (String × String))
  | .obj fields => fields.mapM fun p => (decodeStr p.2).map fun s => (p.1, s)
  | _ => none

/-- Serde encoding of EventMetadata. -/
def encodeMetadata (m : EventMetadata) : Json :=
  .obj [("event_id", encodeNat m.event_id),
        ("occurred_at", encodeNat m.occurred_at),
        ("correlation_id", encodeNat m.correlation_id),
        ("event_version", encodeNat m.event_version),
        ("additional_metadata", encodeStringPairs m.additional_metadata)]

/-- Serde decoding of EventMetadata. -/
def decodeMetadata (j : Json) : Option EventMetadata := do
  let event_id ← (j.getField "event_id").bind decodeNat
  let occurred_at ← (j.getField "occurred_at").bind decodeNat
  let correlation_id ← (j.getField "correlation_id").bind decodeNat
  let event_version ← (j.getField "event_version").bind decodeNat
  let additional_metadata ← (j.getField "additional_metadata").bind decodeStringPairs
  pure ⟨event_id, occurred_at, correlation_id, event_version, additional_metadata⟩

/-- Serde encoding of Currency (unit enum variant as its name). -/
def encodeCurrency : Currency → Json
  | .JPY => .str "JPY"

/-- Serde decoding of Currency. -/
def decodeCurrency (j : Json) : Option Currency :=
  match j with
  | .str s => if s = "JPY" then some .JPY else none
  | _ => none

/-- Serde encoding of Money. -/
def encodeMoney (m : Money) : Json :=
  .obj [("amount", .num m.amount), ("currency", encodeCurrency m.currency)]

/-- Serde decoding of Money. -/
def decodeMoney (j : Json) : Option Money := do
  let amount ← (j.getField "amount").bind decodeInt
  let currency ← (j.getField "currency").bind decodeCurrency
  pure ⟨amount, currency⟩

/-- Serde encoding of OrderLine. -/
def encodeOrderLine (l : OrderLine) : Json :=
  .obj [("book_id", encodeNat l.book_id),
        ("quantity", encodeNat l.quantity),
        ("unit_price", encodeMoney l.unit_price)]

/-- Serde decoding of OrderLine. -/
def decodeOrderLine (j : Json) : Option OrderLine := do
  let book_id ← (j.getField "book_id").bind decodeNat
  let quantity ← (j.getField "quantity").bind decodeNat
  let unit_price ← (j.getField "unit_price").bind decodeMoney
  pure ⟨book_id, quantity, unit_price⟩

/-- Serde encoding of an Option<String> field. -/
def encodeOptString : Option String → Json
  | none => .null
  | some s => .str s

/-- Serde decoding of an Option<String> field. -/
def decodeOptString : Json → Option (Option String)
  | .null => some none
  | .str s => some (some s)
  | _ => none

/-- Serde encoding of ShippingAddress. -/
def encodeAddress (a : ShippingAddress) : Json :=
  .obj [("postal_code", .str a.postal_code),
        ("prefecture", .str a.prefecture),
        ("city", .str a.city),
        ("street", .str a.street),
        ("building", encodeOptString a.building)]

/-- Serde decoding of ShippingAddress. -/
def decodeAddress (j : Json) : Option ShippingAddress := do
  let postal_code ← (j.getField "postal_code").bind decodeStr
  let prefecture ← (j.getField "prefecture").bind decodeStr
  let city ← (j.getField "city").bind decodeStr
  let street ← (j.getField "street").bind decodeStr
  let building ← (j.getField "building").bind decodeOptString
  pure ⟨postal_code, prefecture, city, street, building⟩

/-- Serde encoding of a Vec field. -/
def encodeJsonList (f : α → Json) (xs : List α) : Json := .arr (xs.map f)

/-- Serde decoding of a Vec field. -/
def decodeJsonList (f : Json → Option α) : Json → Option (List α)
  | .arr elems => elems.mapM f
  | _ => none

/-- Serde encoding of a Vec<String> field. -/
def encodeStrList (xs : List String) : Json := .arr (xs.map .str)

/-- Serde decoding of a Vec<String> field. -/
def decodeStrList : Json → Option (List String)
  | .arr elems => elems.mapM decodeStr
  | _ => none

/-- Serde encoding of CompensationResult (externally tagged enum). -/
def encodeCompensationResult : CompensationResult → Json
  | .Success => .str "Success"
  | .PartialSuccess failed_steps =>
    .obj [("PartialSuccess", .obj [("failed_steps", encodeStrList failed_steps)])]
  | .Failed error_message =>
    .obj [("Failed", .obj [("error_message", .str error_message)])]

/-- Serde decoding of CompensationResult. -/
def decodeCompensationResult (j : Json) : Option CompensationResult :=
  match j with
  | .str s => if s = "Success" then some .Success else none
  | .obj _ =>
    match j.getField "PartialSuccess" with
    | some inner =>
      ((inner.getField "failed_steps").bind decodeStrList).map .PartialSuccess
    | none =>
      match j.getField "Failed" with
      | some inner =>
        ((inner.getField "error_message").bind decodeStr).map .Failed
      | none => none
  | _ => none

/-- Serde encoding of the OrderConfirmed payload. -/
def encodeOrderConfirmed (p : OrderConfirmed) : Json :=
  .obj [("metadata", encodeMetadata p.metadata),
        ("order_id", encodeNat p.order_id),
        ("customer_id", encodeNat p.customer_id),
        ("order_lines", encodeJsonList encodeOrderLine p.order_lines),
        ("total_amount", encodeMoney p.total_amount)]

/-- Serde decoding of the OrderConfirmed payload. -/
def decodeOrderConfirmed (j : Json) : Option OrderConfirmed := do
  let metadata ← (j.getField "metadata").bind decodeMetadata
  let order_id ← (j.getField "order_id").bind decodeNat
  let customer_id ← (j.getField "customer_id").bind decodeNat
  let order_lines ← (j.getField "order_lines").bind (decodeJsonList decodeOrderLine)
  let total_amount ← (j.getField "total_amount").bind decodeMoney
  pure ⟨metadata, order_id, customer_id, order_lines, total_amount⟩

/-- Serde encoding of the OrderCancelled payload. -/
def encodeOrderCancelled (p : OrderCancelled) : Json :=
  .obj [("metadata", encodeMetadata p.metadata),
        ("order_id", encodeNat p.order_id),
        ("customer_id", encodeNat p.customer_id),
        ("order_lines", encodeJsonList encodeOrderLine p.order_lines)]

/-- Serde decoding of the OrderCancelled payload. -/
def decodeOrderCancelled (j : Json) : Option OrderCancelled := do
  let metadata ← (j.getField "metadata").bind decodeMetadata
  let order_id ← (j.getField "order_id").bind decodeNat
  let customer_id ← (j.getField "customer_id").bind decodeNat
  let order_lines ← (j.getField "order_lines").bind (decodeJsonList decodeOrderLine)
  pure ⟨metadata, order_id, customer_id, order_lines⟩

/-- Serde encoding of the OrderShipped payload. -/
def encodeOrderShipped (p : OrderShipped) : Json :=
  .obj [("metadata", encodeMetadata p.metadata),
        ("order_id", encodeNat p.order_id),
        ("shipping_address", encodeAddress p.shipping_address)]

/-- Serde decoding of the OrderShipped payload. -/
def decodeOrderShipped (j : Json) : Option OrderShipped := do
  let metadata ← (j.getField "metadata").bind decodeMetadata
  let order_id ← (j.getField "order_id").bind decodeNat
  let shipping_address ← (j.getField "shipping_address").bind decodeAddress
  pure ⟨metadata, order_id, shipping_address⟩

/-- Serde encoding of the OrderDelivered payload. -/
def encodeOrderDelivered (p : OrderDelivered) : Json :=
  .obj [("metadata", encodeMetadata p.metadata),
        ("order_id", encodeNat p.order_id)]

/-- Serde decoding of the OrderDelivered payload. -/
def decodeOrderDelivered (j : Json) : Option OrderDelivered := do
  let metadata ← (j.getField "metadata").bind decodeMetadata
  let order_id ← (j.getField "order_id").bind decodeNat
  pure ⟨metadata, order_id⟩

/-- Serde encoding of the InventoryReserved payload. -/
def encodeInventoryReserved (p : InventoryReserved) : Json :=
  .obj [("metadata", encodeMetadata p.metadata),
        ("order_id", encodeNat p.order_id),
        ("order_lines", encodeJsonList encodeOrderLine p.order_lines)]

/-- Serde decoding of the InventoryReserved payload. -/
def decodeInventoryReserved (j : Json) : Option InventoryReserved := do
  let metadata ← (j.getField "metadata").bind decodeMetadata
  let order_id ← (j.getField "order_id").bind decodeNat
  let order_lines ← (j.getField "order_lines").bind (decodeJsonList decodeOrderLine)
  pure ⟨metadata, order_id, order_lines⟩

/-- Serde encoding of the InventoryReleased payload. -/
def encodeInventoryReleased (p : InventoryReleased) : Json :=
  .obj [("metadata", encodeMetadata p.metadata),
        ("order_id", encodeNat p.order_id),
        ("order_lines", encodeJsonList encodeOrderLine p.order_lines)]

/-- Serde decoding of the InventoryReleased payload. -/
def decodeInventoryReleased (j : Json) : Option InventoryReleased := do
  let metadata ← (j.getField "metadata").bind decodeMetadata
  let order_id ← (j.getField "order_id").bind decodeNat
  let order_lines ← (j.getField "order_lines").bind (decodeJsonList decodeOrderLine)
  pure ⟨metadata, order_id, order_lines⟩

/-- Serde encoding of the InventoryReservationFailed payload. -/
def encodeInventoryReservationFailed (p : InventoryReservationFailed) : Json :=
  .obj [("metadata", encodeMetadata p.metadata),
        ("order_id", encodeNat p.order_id),
        ("order_lines", encodeJsonList encodeOrderLine p.order_lines),
        ("failure_reason", .str p.failure_reason),
        ("original_event_id", encodeNat p.original_event_id)]

/-- Serde decoding of the InventoryReservationFailed payload. -/
def decodeInventoryReservationFailed (j : Json) : Option InventoryReservationFailed := do
  let metadata ← (j.getField "metadata").bind decodeMetadata
  let order_id ← (j.getField "order_id").bind decodeNat
  let order_lines ← (j.getField "order_lines").bind (decodeJsonList decodeOrderLine)
  let failure_reason ← (j.getField "failure_reason").bind decodeStr
  let original_event_id ← (j.getField "original_event_id").bind decodeNat
  pure ⟨metadata, order_id, order_lines, failure_reason, original_event_id⟩

/-- Serde encoding of the ShippingFailed payload. -/
def encodeShippingFailed (p : ShippingFailed) : Json :=
  .obj [("metadata", encodeMetadata p.metadata),
        ("order_id", encodeNat p.order_id),
        ("failure_reason", .str p.failure_reason),
        ("original_event_id", encodeNat p.original_event_id)]

/-- Serde decoding of the ShippingFailed payload. -/
def decodeShippingFailed (j : Json) : Option ShippingFailed := do
  let metadata ← (j.getField "metadata").bind decodeMetadata
  let order_id ← (j.getField "order_id").bind decodeNat
  let failure_reason ← (j.getField "failure_reason").bind decodeStr
  let original_event_id ← (j.getField "original_event_id").bind decodeNat
  pure ⟨metadata, order_id, failure_reason, original_event_id⟩

/-- Serde encoding of the DeliveryFailed payload. -/
def encodeDeliveryFailed (p : DeliveryFailed) : Json :=
  .obj [("metadata", encodeMetadata p.metadata),
        ("order_id", encodeNat p.order_id),
        ("failure_reason", .str p.failure_reason),
        ("original_event_id", encodeNat p.original_event_id)]

/-- Serde decoding of the DeliveryFailed payload. -/
def decodeDeliveryFailed (j : Json) : Option DeliveryFailed := do
  let metadata ← (j.getField "metadata").bind decodeMetadata
  let order_id ← (j.getField "order_id").bind decodeNat
  let failure_reason ← (j.getField "failure_reason").bind decodeStr
  let original_event_id ← (j.getField "original_event_id").bind decodeNat
  pure ⟨metadata, order_id, failure_reason, original_event_id⟩

/-- Serde encoding of the SagaCompensationStarted payload. -/
def encodeSagaCompensationStarted (p : SagaCompensationStarted) : Json :=
  .obj [("metadata", encodeMetadata p.metadata),
        ("saga_id", encodeNat p.saga_id),
        ("failed_step", .str p.failed_step),
        ("failure_reason", .str p.failure_reason),
        ("compensation_steps", encodeStrList p.compensation_steps)]

/-- Serde decoding of the SagaCompensationStarted payload. -/
def decodeSagaCompensationStarted (j : Json) : Option SagaCompensationStarted := do
  let metadata ← (j.getField "metadata").bind decodeMetadata
  let saga_id ← (j.getField "saga_id").bind decodeNat
  let failed_step ← (j.getField "failed_step").bind decodeStr
  let failure_reason ← (j.getField "failure_reason").bind decodeStr
  let compensation_steps ← (j.getField "compensation_steps").bind decodeStrList
  pure ⟨metadata, saga_id, failed_step, failure_reason, compensation_steps⟩

/-- Serde encoding of the SagaCompensationCompleted payload. -/
def encodeSagaCompensationCompleted (p : SagaCompensationCompleted) : Json :=
  .obj [("metadata", encodeMetadata p.metadata),
        ("saga_id", encodeNat p.saga_id),
        ("compensated_steps", encodeStrList p.compensated_steps),
        ("compensation_result", encodeCompensationResult p.compensation_result)]

/-- Serde decoding of the SagaCompensationCompleted payload. -/
def decodeSagaCompensationCompleted (j : Json) : Option SagaCompensationCompleted := do
  let metadata ← (j.getField "metadata").bind decodeMetadata
  let saga_id ← (j.getField "saga_id").bind decodeNat
  let compensated_steps ← (j.getField "compensated_steps").bind decodeStrList
  let compensation_result ← (j.getField "compensation_result").bind decodeCompensationResult
  pure ⟨metadata, saga_id, compensated_steps, compensation_result⟩

/-- Serde encoding of DomainEvent: adjacently tagged with tag field
event_type and content field event_data. -/
def encodeDomainEvent : DomainEvent → Json
  | .OrderConfirmed p =>
    .obj [("event_type", .str "OrderConfirmed"), ("event_data", encodeOrderConfirmed p)]
  | .OrderCancelled p =>
    .obj [("event_type", .str "OrderCancelled"), ("event_data", encodeOrderCancelled p)]
  | .OrderShipped p =>
    .obj [("event_type", .str "OrderShipped"), ("event_data", encodeOrderShipped p)]
  | .OrderDelivered p =>
    .obj [("event_type", .str "OrderDelivered"), ("event_data", encodeOrderDelivered p)]
  | .InventoryReserved p =>
    .obj [("event_type", .str "InventoryReserved"), ("event_data", encodeInventoryReserved p)]
  | .InventoryReleased p =>
    .obj [("event_type", .str "InventoryReleased"), ("event_data", encodeInventoryReleased p)]
  | .InventoryReservationFailed p =>
    .obj [("event_type", .str "InventoryReservationFailed"),
          ("event_data", encodeInventoryReservationFailed p)]
  | .ShippingFailed p =>
    .obj [("event_type", .str "ShippingFailed"), ("event_data", encodeShippingFailed p)]
  | .DeliveryFailed p =>
    .obj [("event_type", .str "DeliveryFailed"), ("event_data", encodeDeliveryFailed p)]
  | .SagaCompensationStarted p =>
    .obj [("event_type", .str "SagaCompensationStarted"),
          ("event_data", encodeSagaCompensationStarted p)]
  | .SagaCompensationCompleted p =>
    .obj [("event_type", .str "SagaCompensationCompleted"),
          ("event_data", encodeSagaCompensationCompleted p)]

/-- Serde decoding of DomainEvent from the adjacently tagged envelope. -/
def decodeDomainEvent (j : Json) : Option DomainEvent :=
  match j.getField "event_type", j.getField "event_data" with
  | some (.str tag), some data =>
    if tag = "OrderConfirmed" then (decodeOrderConfirmed data).map .OrderConfirmed
    else if tag = "OrderCancelled" then (decodeOrderCancelled data).map .OrderCancelled
    else if tag = "OrderShipped" then (decodeOrderShipped data).map .OrderShipped
    else if tag = "OrderDelivered" then (decodeOrderDelivered data).map .OrderDelivered
    else if tag = "InventoryReserved" then
      (decodeInventoryReserved data).map .InventoryReserved
    else if tag = "InventoryReleased" then
      (decodeInventoryReleased data).map .InventoryReleased
    else if tag = "InventoryReservationFailed" then
      (decodeInventoryReservationFailed data).map .InventoryReservationFailed
    else if tag = "ShippingFailed" then (decodeShippingFailed data).map .ShippingFailed
    else if tag = "DeliveryFailed" then (decodeDeliveryFailed data).map .DeliveryFailed
    else if tag = "SagaCompensationStarted" then
      (decodeSagaCompensationStarted data).map .SagaCompensationStarted
    else if tag = "SagaCompensationCompleted" then
      (decodeSagaCompensationCompleted data).map .SagaCompensationCompleted
    else none
  | _, _ => none

/-- SerializationError of src/domain/serialization.rs. -/
inductive SerializationError where
  | JsonSerializationFailed (message event_type : String) (field : Option String)
  | JsonDeserializationFailed (message expected_type input_preview : String)
  | SchemaVersionIncompatible (expected actual : Nat) (event_type : String)
  | MissingRequiredField (field_name event_type : String)
  | InvalidFieldValue (field_name field_value event_type reason : String)
  | ComplexObjectSerializationFailed (object_type event_type details : String)
  | SchemaValidationFailed (validation_error event_type : String)
  | UnsupportedEventFormat (format event_type : String)
  deriving DecidableEq, Repr

/-- EventSerializer: the inclusive range of supported schema versions. -/
structure EventSerializer where
  supported_lo : Nat
  supported_hi : Nat
  deriving DecidableEq, Repr

/-- EventSerializer::new: only version 1 is supported. -/
def EventSerializer.new : EventSerializer := ⟨1, 1⟩

/-- RangeInclusive::contains on the supported versions. -/
def EventSerializer.supports (s : EventSerializer) (version : Nat) : Bool :=
  s.supported_lo ≤ version && version ≤ s.supported_hi

/-- validate_event_before_serialization: non-nil metadata ids plus the
variant-specific required-field checks.  The order_id / customer_id checks of
OrderConfirmed test whether the UUID renders to an empty string, exactly as
the source does (a UUID never does, but the check is kept). -/
def EventSerializer.validate_event_before_serialization (event : DomainEvent) :
    Except SerializationError Unit :=
  let event_type := event.event_type
  let metadata := event.metadata
  if metadata.event_id == 0 then
    .error (.MissingRequiredField "event_id" event_type)
  else if metadata.correlation_id == 0 then
    .error (.MissingRequiredField "correlation_id" event_type)
  else
    match event with
    | .OrderConfirmed order_confirmed =>
      if toString order_confirmed.order_id = "" then
        .error (.MissingRequiredField "order_id" event_type)
      else if toString order_confirmed.customer_id = "" then
        .error (.MissingRequiredField "customer_id" event_type)
      else .ok ()
    | .InventoryReserved inventory_reserved =>
      if inventory_reserved.order_lines.isEmpty then
        .error (.InvalidFieldValue "order_lines" "empty array" event_type
          "Order lines cannot be empty for inventory reservation")
      else .ok ()
    | _ => .ok ()

/-- validate_serialized_json: the produced value must carry the envelope
fields event_type and event_data.  (The JSON-parses check of the source is a
tautology at the level of parsed values.) -/
def EventSerializer.validate_serialized_json (json : Json) (original_event : DomainEvent) :
    Except SerializationError Unit :=
  if (json.getField "event_type").isNone then
    .error (.JsonSerializationFailed "Missing event_type field in serialized JSON"
      original_event.event_type (some "event_type"))
  else if (json.getField "event_data").isNone then
    .error (.JsonSerializationFailed "Missing event_data field in serialized JSON"
      original_event.event_type (some "event_data"))
  else .ok ()

/-- EventSerializer::serialize_event.  serde_json::to_string cannot fail on
these derive-serialized types, so the encode step is total. -/
def EventSerializer.serialize_event (s : EventSerializer) (event : DomainEvent) :
    Except SerializationError Json :=
  let event_version := event.metadata.event_version
  if ¬ s.supports event_version then
    .error (.SchemaVersionIncompatible s.supported_hi event_version event.event_type)
  else
    match EventSerializer.validate_event_before_serialization event with
    | .error e => .error e
    | .ok _ =>
      let json := encodeDomainEvent event
      match EventSerializer.validate_serialized_json json event with
      | .error e => .error e
      | .ok _ => .ok json

/-- validate_schema_compatibility: read the schema version out of the
envelope (defaulting to 1) before the full decode. -/
def EventSerializer.validate_schema_compatibility (s : EventSerializer) (json : Json) :
    Except SerializationError Unit :=
  let event_type := ((json.getField "event_type").bind decodeStr).getD "Unknown"
  let version :=
    (((json.getField "event_data").bind (fun data => data.getField "metadata")).bind
      (fun metadata => (metadata.getField "event_version").bind decodeNat)).getD 1
  if ¬ s.supports version then
    .error (.SchemaVersionIncompatible s.supported_hi version event_type)
  else .ok ()

/-- validate_deserialized_event: re-check the non-nil metadata ids. -/
def EventSerializer.validate_deserialized_event (event : DomainEvent) :
    Except SerializationError Unit :=
  let metadata := event.metadata
  if metadata.event_id == 0 then
    .error (.SchemaValidationFailed "Deserialized event has nil event_id" event.event_type)
  else if metadata.correlation_id == 0 then
    .error (.SchemaValidationFailed "Deserialized event has nil correlation_id"
      event.event_type)
  else .ok ()

/-- EventSerializer::deserialize_event on a parsed JSON value.  The source
first rejects an empty input string and invalid JSON syntax; those string-level
checks live outside the model, which receives parsed values.  The detailed
error analysis of serde messages (analyze_deserialization_error) is collapsed
to one representative decoding error. -/
def EventSerializer.deserialize_event (s : EventSerializer) (json : Json) :
    Except SerializationError DomainEvent :=
  match s.validate_schema_compatibility json with
  | .error e => .error e
  | .ok _ =>
    match decodeDomainEvent json with
    | some event =>
      match EventSerializer.validate_deserialized_event event with
      | .error e => .error e
      | .ok _ => .ok event
    | none =>
      .error (.JsonDeserializationFailed "deserialization failed" "DomainEvent" "")

/-- EventBusError of src/domain/port.rs. -/
inductive EventBusError where
  | PublishingFailed (msg : String)
  deriving DecidableEq, Repr

/-- Display impl of EventBusError (thiserror). -/
def EventBusError.display : EventBusError → String
  | .PublishingFailed msg => "Event publishing failed: " ++ msg

/-- The outcome of one execution attempt of a type-erased handler: a normal
return, or the elapse of the per-handler timeout. -/
inductive AttemptOutcome where
  | ok
  | err (e : HandlerError)
  | timeout
  deriving DecidableEq, Repr

/-- A registered type-erased handler (Box<dyn DynEventHandler>), abstracted
to the interface the bus uses: handler_name, can_handle,
supports_schema_version, and the outcome of each execution attempt (attempt
numbers start at 1; successive attempts may differ, modelling transient
failures). -/
structure RegisteredHandler where
  name : String
  can_handle : DomainEvent → Bool
  supports_schema_version : Nat → Bool
  attempt : Nat → AttemptOutcome

/-- EventBusConfig of src/adapter/driven/event_bus.rs; durations in ms. -/
structure EventBusConfig where
  max_retry_attempts : Nat
  retry_delay : Nat
  dead_letter_queue_max_size : Nat
  handler_timeout : Nat
  deriving DecidableEq, Repr

/-- EventBusConfig::default. -/
def EventBusConfig.default : EventBusConfig := ⟨3, 1000, 1000, 30000⟩

/-- The retry loop of execute_handler_with_retry, counted by the remaining
attempts (so the recursion is structural); the source counts attempts up while
`attempts < max_retry_attempts`, which is the same iteration space.  Each
iteration checks the schema version, runs one (timeout-guarded) attempt,
returns on success, stops on a permanent error, and remembers and retries on a
transient error or timeout; when attempts run out the last error is
returned. -/
def executeRetryLoop (config : EventBusConfig) (handler : RegisteredHandler)
    (event : DomainEvent) : Nat → Option HandlerError → Except HandlerError Unit
  | 0, last_error => .error (last_error.getD (.ProcessingFailed "Unknown error"))
  | remaining + 1, last_error =>
    let attempts := config.max_retry_attempts - remaining
    if ¬ handler.supports_schema_version event.metadata.event_version then
      .error (.PermanentError ("Handler " ++ handler.name ++
        " does not support schema version " ++ toString event.metadata.event_version))
    else
      match handler.attempt attempts with
      | .ok => .ok ()
      | .err handler_error =>
        match handler_error with
        | .PermanentError msg => .error (.PermanentError msg)
        | e => executeRetryLoop config handler event remaining (some e)
      | .timeout =>
        executeRetryLoop config handler event remaining
          (some (.TransientError "Handler timeout"))

/-- InMemoryEventBus::execute_handler_with_retry. -/
def execute_handler_with_retry (config : EventBusConfig)
    (handler : RegisteredHandler) (event : DomainEvent) : Except HandlerError Unit :=
  executeRetryLoop config handler event config.max_retry_attempts none

/-- FailedEventProcessing; the wall-clock fields first_failed_at and
last_failed_at are dropped (no code path reads them). -/
structure FailedEventProcessing where
  event : DomainEvent
  handler_name : String
  error : String
  attempt_count : Nat
  is_retryable : Bool
  deriving DecidableEq, Repr

/-- DeadLetterEntry; added_at is dropped (no code path reads it). -/
structure DeadLetterEntry where
  failed_processing : FailedEventProcessing
  deriving DecidableEq, Repr

/-- InMemoryEventBus::add_to_dead_letter_queue: evict the oldest entry when
the queue is at (or beyond) its size bound, then push the new entry. -/
def add_to_dead_letter_queue (config : EventBusConfig)
    (dlq : List DeadLetterEntry) (event : DomainEvent) (handler_name : String)
    (error : HandlerError) : List DeadLetterEntry :=
  let dlq2 := if dlq.length ≥ config.dead_letter_queue_max_size then dlq.tail else dlq
  let is_retryable := match error with
    | .TransientError _ => true
    | _ => false
  dlq2 ++ [⟨⟨event, handler_name, error.display, config.max_retry_attempts, is_retryable⟩⟩]

/-- InMemoryEventBus::execute_handler_by_name: run, with retries, the first
registered handler bearing the given name that can handle the event. -/
def execute_handler_by_name (config : EventBusConfig)
    (handlers : List RegisteredHandler) (handler_name : String)
    (event : DomainEvent) : Except HandlerError Unit :=
  match handlers.find? (fun h => h.name == handler_name && h.can_handle event) with
  | some handler => execute_handler_with_retry config handler event
  | none => .error (.ProcessingFailed ("Handler " ++ handler_name ++ " not found"))

/-- InMemoryEventBus::validate_event_serialization: the round-trip self-check
run before dispatch. -/
def validate_event_serialization (event : DomainEvent) : Except EventBusError Unit :=
  match EventSerializer.new.serialize_event event with
  | .ok json =>
    match EventSerializer.new.deserialize_event json with
    | .ok _ => .ok ()
    | .error _ => .error (.PublishingFailed "Serialization error")
  | .error _ => .error (.PublishingFailed "Serialization error")

/-- Save into an association-list map: replace the first binding of the key,
or append a fresh binding (HashMap::insert of the mock repositories). -/
def assocSave (k : Uuid) (v : α) : List (Uuid × α) → List (Uuid × α)
  | [] => [(k, v)]
  | (k2, v2) :: rest => if k2 == k then (k, v) :: rest else (k2, v2) :: assocSave k v rest

/-- The world a saga handler acts on: the order and inventory repositories,
the events published to the event bus so far, the ProcessedEventTracker of
the InventoryReservationHandler, and a counter supplying the fresh UUID /
timestamp draws of the events the handlers construct. -/
structure SagaState where
  orders : List (Uuid × Order)
  inventories : List (Uuid × Inventory)
  published : List DomainEvent
  processed : List Uuid
  next_fresh : Nat
  deriving DecidableEq, Repr

/-- Consume one fresh draw from the counter.  A version-4 UUID always carries
its version bits and is never the nil UUID, so the model draws the successive
nonzero naturals. -/
def SagaState.draw (st : SagaState) : MetaFresh × SagaState :=
  (⟨st.next_fresh + 1, st.next_fresh + 1, st.next_fresh + 1⟩,
    { st with next_fresh := st.next_fresh + 1 })

/-- EventBus::publish as the handlers observe it: the InMemoryEventBus first
runs the serialization round-trip self-check and fails with a publishing
error when it does not pass; on success the event is recorded as published.
(The in-process dispatch the bus then performs is modelled separately as part
of the event-bus model; the handlers only observe the returned Result.) -/
def SagaState.publish_event (st : SagaState) (e : DomainEvent) :
    Except EventBusError SagaState :=
  match validate_event_serialization e with
  | .error err => .error err
  | .ok _ => .ok { st with published := st.published ++ [e] }

/-- ProcessedEventTracker::mark_processed. -/
def SagaState.mark_processed (st : SagaState) (event_id : Uuid) : SagaState :=
  { st with processed := st.processed ++ [event_id] }

/-- ProcessedEventTracker::is_processed. -/
def SagaState.is_processed (st : SagaState) (event_id : Uuid) : Bool :=
  st.processed.contains event_id

/-- The outcome of running a saga handler: its result and the new world. -/
structure HandlerOut where
  result : Except HandlerError Unit
  state : SagaState
  deriving DecidableEq, Repr

/-- The per-order-line reservation loop of InventoryReservationHandler::handle,
followed by the success path's InventoryReserved publication and processed
mark.  On a line whose reservation fails, the handler publishes
InventoryReservationFailed (carrying all lines of the event), marks the event
processed and returns a domain error.  Either publication goes through
EventBus::publish and its error is propagated with the question-mark
operator: on a failed publish the handler returns ProcessingFailed at once,
before any processed mark. -/
def reserveOrderLines (ev : OrderConfirmed) (st : SagaState) :
    List OrderLine → HandlerOut
  | [] =>
    let (fresh, st1) := st.draw
    let reserved_event := InventoryReserved.with_correlation_id fresh ev.order_id
      ev.order_lines ev.metadata.correlation_id
    match st1.publish_event (.InventoryReserved reserved_event) with
    | .error bus_error =>
      ⟨.error (.ProcessingFailed ("event publish error: " ++ bus_error.display)), st1⟩
    | .ok st2 => ⟨.ok (), st2.mark_processed ev.metadata.event_id⟩
  | order_line :: rest =>
    let inventory := (st.inventories.lookup order_line.book_id).getD
      (Inventory.new order_line.book_id 0)
    match inventory.reserve order_line.quantity with
    | ⟨.ok _, inv2⟩ =>
      reserveOrderLines ev
        { st with inventories := assocSave order_line.book_id inv2 st.inventories } rest
    | ⟨.error domain_error, _⟩ =>
      let failure_reason := "insufficient stock: " ++ domain_error.display
      let (fresh, st1) := st.draw
      let compensation_event := InventoryReservationFailed.with_correlation_id fresh
        ev.order_id ev.order_lines failure_reason ev.metadata.event_id
        ev.metadata.correlation_id
      match st1.publish_event (.InventoryReservationFailed compensation_event) with
      | .error bus_error =>
        ⟨.error (.ProcessingFailed
          ("compensation event publish error: " ++ bus_error.display)), st1⟩
      | .ok st2 =>
        let st3 := st2.mark_processed ev.metadata.event_id
        ⟨.error (.DomainError
          ("inventory reservation error: " ++ domain_error.display)), st3⟩

/-- InventoryReservationHandler::handle on an OrderConfirmed event: skip if
already processed; fail if the order is missing; skip (marking processed) if
the order is not Confirmed; otherwise reserve inventory line by line. -/
def InventoryReservationHandler.handle (ev : OrderConfirmed) (st : SagaState) :
    HandlerOut :=
  if st.is_processed ev.metadata.event_id then ⟨.ok (), st⟩
  else
    match st.orders.lookup ev.order_id with
    | none => ⟨.error (.ProcessingFailed "order not found"), st⟩
    | some order =>
      if order.status ≠ .Confirmed then
        ⟨.ok (), st.mark_processed ev.metadata.event_id⟩
      else
        reserveOrderLines ev st ev.order_lines

/-- InventoryReservationFailureCompensationHandler::handle on an
InventoryReservationFailed event: cancel the order, save it, and publish an
OrderCancelled event with the same correlation id.  A failed publish is
propagated as ProcessingFailed (the cancelled order stays saved, since the
save precedes the publish in the source). -/
def InventoryReservationFailureCompensationHandler.handle
    (ev : InventoryReservationFailed) (st : SagaState) : HandlerOut :=
  match st.orders.lookup ev.order_id with
  | none => ⟨.error (.ProcessingFailed "order not found"), st⟩
  | some order =>
    let (fresh, st1) := st.draw
    match order.cancel fresh with
    | ⟨.error e, _⟩ =>
      ⟨.error (.DomainError ("order cancel error: " ++ e.display)), st⟩
    | ⟨.ok _, order2⟩ =>
      let st2 := { st1 with orders := assocSave order2.id order2 st1.orders }
      let (fresh2, st3) := st2.draw
      let cancelled_event := OrderCancelled.with_correlation_id fresh2 order2.id
        order2.customer_id order2.order_lines ev.metadata.correlation_id
      match st3.publish_event (.OrderCancelled cancelled_event) with
      | .error bus_error =>
        ⟨.error (.ProcessingFailed
          ("event publish error: " ++ bus_error.display)), st3⟩
      | .ok st4 => ⟨.ok (), st4⟩

/-- Deliver the same OrderConfirmed event to the InventoryReservationHandler
n times in a row, threading the state. -/
def InventoryReservationHandler.iterate (ev : OrderConfirmed) :
    Nat → SagaState → SagaState
  | 0, st => st
  | n + 1, st =>
    InventoryReservationHandler.iterate ev n (InventoryReservationHandler.handle ev st).state

/-- InMemoryEventBus state: the registered handlers, the dead-letter queue
and the configuration. -/
structure InMemoryEventBus where
  handlers : List RegisteredHandler
  dead_letter_queue : List DeadLetterEntry
  config : EventBusConfig

/-- The permanent error recorded for a handler that does not support the
schema version of the event. -/
def unsupportedVersionError (handler_name : String) (version : Nat) : HandlerError :=
  .PermanentError ("Handler " ++ handler_name ++
    " does not support schema version " ++ toString version)

/-- The body of the dispatch loop of InMemoryEventBus::publish for one
applicable handler (identified by name and recorded version support): route
unsupported versions straight to the dead-letter queue, otherwise execute with
retries and record any failure in the dead-letter queue. -/
def dispatchStep (config : EventBusConfig) (handlers : List RegisteredHandler)
    (event : DomainEvent) (dlq : List DeadLetterEntry)
    (pair : String × Bool) : List DeadLetterEntry :=
  if ¬ pair.2 then
    add_to_dead_letter_queue config dlq event pair.1
      (unsupportedVersionError pair.1 event.metadata.event_version)
  else
    match execute_handler_by_name config handlers pair.1 event with
    | .ok _ => dlq
    | .error handler_error =>
      add_to_dead_letter_queue config dlq event pair.1 handler_error

/-- InMemoryEventBus::publish: run the serialization self-check, collect the
(name, version-support) pairs of all handlers whose can_handle matches, then
dispatch to each in turn; handler failures land in the dead-letter queue and
publish itself returns Ok once the self-check has passed. -/
def InMemoryEventBus.publish (bus : InMemoryEventBus) (event : DomainEvent) :
    Except EventBusError Unit × InMemoryEventBus :=
  match validate_event_serialization event with
  | .error e => (.error e, bus)
  | .ok _ =>
    let applicable := (bus.handlers.filter (fun h => h.can_handle event)).map
      (fun h => (h.name, h.supports_schema_version event.metadata.event_version))
    let dlq := applicable.foldl
      (dispatchStep bus.config bus.handlers event) bus.dead_letter_queue
    (.ok (), { bus with dead_letter_queue := dlq })

/-- The failure, if any, that the dispatch loop of publish records for one
matching handler.  It depends only on the handler itself (and on the handler
registry, through the by-name lookup), never on the outcome of other
handlers. -/
def handlerFailure (config : EventBusConfig) (handlers : List RegisteredHandler)
    (event : DomainEvent) (h : RegisteredHandler) : Option (String × HandlerError) :=
  if ¬ h.supports_schema_version event.metadata.event_version then
    some (h.name, unsupportedVersionError h.name event.metadata.event_version)
  else
    match execute_handler_by_name config handlers h.name event with
    | .ok _ => none
    | .error e => some (h.name, e)

/-- Every single reserve or release call keeps the stock count nonnegative. -/
theorem Inventory.applyOp_nonneg (inv : Inventory) (op : InvOp)
    (hnn : 0 ≤ inv.quantity_on_hand) : 0 ≤ (inv.applyOp op).quantity_on_hand := by
  cases op with
  | reserve quantity =>
    by_cases hq : inv.quantity_on_hand ≥ (quantity : Int)
    · simp [Inventory.applyOp, Inventory.reserve, Inventory.has_available_stock, hq]
    · simp [Inventory.applyOp, Inventory.reserve, Inventory.has_available_stock, hq]
      exact hnn
  | release quantity =>
    simp only [Inventory.applyOp, Inventory.release]
    omega

/-- A fold of reserve/release calls keeps the stock count nonnegative. -/
theorem Inventory.foldl_applyOp_nonneg (ops : List InvOp) (inv : Inventory)
    (hnn : 0 ≤ inv.quantity_on_hand) :
    0 ≤ (ops.foldl Inventory.applyOp inv).quantity_on_hand := by
  induction ops generalizing inv with
  | nil => simpa using hnn
  | cons op rest ih =>
    simpa using ih (inv.applyOp op) (inv.applyOp_nonneg op hnn)

/-- Claim C4.  Inventory::reserve(n) fails, and fails with
InsufficientInventory, exactly when n exceeds quantity_on_hand; a failed call
leaves the inventory untouched; a successful call decrements quantity_on_hand
by exactly n; and any sequence of reserve/release calls starting from a
nonnegative count keeps the count nonnegative. -/
theorem c4_inventory_reserve_spec (inv : Inventory) (n : Nat) :
    ((inv.reserve n).result = .error .InsufficientInventory ↔
      inv.quantity_on_hand < (n : Int))
    ∧ (∀ e, (inv.reserve n).result = .error e → (inv.reserve n).inventory = inv)
    ∧ ((inv.reserve n).result = .ok () →
        (inv.reserve n).inventory.quantity_on_hand = inv.quantity_on_hand - (n : Int)
        ∧ (inv.reserve n).inventory.book_id = inv.book_id)
    ∧ (∀ ops : List InvOp, 0 ≤ inv.quantity_on_hand →
        0 ≤ (ops.foldl Inventory.applyOp inv).quantity_on_hand) := by
  refine ⟨?_, ?_, ?_, fun ops h => Inventory.foldl_applyOp_nonneg ops inv h⟩
  · by_cases hq : inv.quantity_on_hand ≥ (n : Int)
    · simp [Inventory.reserve, Inventory.has_available_stock, hq]
    · simp [Inventory.reserve, Inventory.has_available_stock, hq]
      omega
  · intro e he
    by_cases hq : inv.quantity_on_hand ≥ (n : Int)
    · simp [Inventory.reserve, Inventory.has_available_stock, hq] at he
    · simp [Inventory.reserve, Inventory.has_available_stock, hq]
  · intro hok
    by_cases hq : inv.quantity_on_hand ≥ (n : Int)
    · simp [Inventory.reserve, Inventory.has_available_stock, hq]
    · simp [Inventory.reserve, Inventory.has_available_stock, hq] at hok

/-- Witness for C4 at a concrete inventory. -/
theorem c4_inventory_reserve_spec_witness :
    ((Inventory.new 1 5).reserve 7).result = .error .InsufficientInventory
    ∧ ((Inventory.new 1 5).reserve 7).inventory = Inventory.new 1 5
    ∧ 0 ≤ (([InvOp.reserve 3, InvOp.release 2]).foldl Inventory.applyOp
        (Inventory.new 1 5)).quantity_on_hand := by
  have h := c4_inventory_reserve_spec (Inventory.new 1 5) 7
  refine ⟨h.1.mpr (by decide), ?_, h.2.2.2 [InvOp.reserve 3, InvOp.release 2] (by decide)⟩
  exact h.2.1 .InsufficientInventory (h.1.mpr (by decide))

/-- Claim C8.  Whenever reserve(n) succeeds, an immediate release(n) restores
the inventory exactly. -/
theorem c8_reserve_release_roundtrip (inv : Inventory) (n : Nat)
    (hok : (inv.reserve n).result = .ok ()) :
    ((inv.reserve n).inventory.release n).inventory = inv := by
  by_cases hq : inv.quantity_on_hand ≥ (n : Int)
  · simp [Inventory.reserve, Inventory.has_available_stock, Inventory.release, hq]
  · simp [Inventory.reserve, Inventory.has_available_stock, hq] at hok

/-- Witness for C8 at a concrete inventory. -/
theorem c8_reserve_release_roundtrip_witness :
    (((Inventory.new 1 5).reserve 3).inventory.release 3).inventory = Inventory.new 1 5 :=
  c8_reserve_release_roundtrip (Inventory.new 1 5) 3 (by decide)

/-- What a successful add_book call tells us: the quantity was positive and
only the order lines changed. -/
theorem Order.add_book_ok_elim (o : Order) (b : Uuid) (q : Nat) (p : Money)
    (o2 : Order) (h : o.add_book b q p = ⟨.ok (), o2⟩) :
    q ≠ 0 ∧ ∃ lines, addBookToLines o.order_lines b q p = .ok lines ∧
      o2 = { o with order_lines := lines } := by
  simp only [Order.add_book] at h
  split_ifs at h with hq
  · simp at h
  · cases hmatch : addBookToLines o.order_lines b q p with
    | error e => rw [hmatch] at h; simp at h
    | ok lines =>
      rw [hmatch] at h
      simp only [OpOut.mk.injEq] at h
      exact ⟨by simpa using hq, lines, rfl, h.2.symm⟩

/-- What a successful confirm call tells us. -/
theorem Order.confirm_ok_elim (o : Order) (fresh : MetaFresh) (o2 : Order)
    (h : o.confirm fresh = ⟨.ok (), o2⟩) :
    o.status = .Pending ∧ o.order_lines ≠ [] ∧ o.shipping_address.isSome = true ∧
    o2 = { o with
      status := .Confirmed,
      domain_events := o.domain_events ++ [DomainEvent.OrderConfirmed
        (OrderConfirmed.new fresh o.id o.customer_id o.order_lines o.calculate_total)] } := by
  simp only [Order.confirm] at h
  split_ifs at h with h1 h2 h3
  · simp at h
  · simp at h
  · simp at h
  · simp only [OpOut.mk.injEq] at h
    refine ⟨not_not.mp h1, fun hnil => h2 (by simp [hnil]), ?_, h.2.symm⟩
    cases hsa : o.shipping_address
    · exact absurd (by simp [hsa]) h3
    · simp

/-- What a successful cancel call tells us. -/
theorem Order.cancel_ok_elim (o : Order) (fresh : MetaFresh) (o2 : Order)
    (h : o.cancel fresh = ⟨.ok (), o2⟩) :
    (o.status = .Pending ∨ o.status = .Confirmed) ∧
    o2 = { o with
      status := .Cancelled,
      domain_events := o.domain_events ++ [DomainEvent.OrderCancelled
        (OrderCancelled.new fresh o.id o.customer_id o.order_lines)] } := by
  cases hstatus : o.status with
  | Pending =>
    simp only [Order.cancel, hstatus, OpOut.mk.injEq] at h
    exact ⟨Or.inl rfl, h.2.symm⟩
  | Confirmed =>
    simp only [Order.cancel, hstatus, OpOut.mk.injEq] at h
    exact ⟨Or.inr rfl, h.2.symm⟩
  | Shipped => simp [Order.cancel, hstatus] at h
  | Delivered => simp [Order.cancel, hstatus] at h
  | Cancelled => simp [Order.cancel, hstatus] at h

/-- What a successful mark_as_shipped call tells us. -/
theorem Order.mark_as_shipped_ok_elim (o : Order) (fresh : MetaFresh) (o2 : Order)
    (h : o.mark_as_shipped fresh = .ret (.ok ()) o2) :
    o.status = .Confirmed ∧ ∃ a, o.shipping_address = some a ∧
    o2 = { o with
      status := .Shipped,
      domain_events := o.domain_events ++ [DomainEvent.OrderShipped
        (OrderShipped.new fresh o.id a)] } := by
  simp only [Order.mark_as_shipped] at h
  split_ifs at h with h1
  · simp at h
  · refine ⟨not_not.mp h1, ?_⟩
    cases hsa : o.shipping_address with
    | none => rw [hsa] at h; simp at h
    | some a =>
      rw [hsa] at h
      simp only [ShipOut.ret.injEq] at h
      exact ⟨a, rfl, h.2.symm⟩

/-- What a successful mark_as_delivered call tells us. -/
theorem Order.mark_as_delivered_ok_elim (o : Order) (fresh : MetaFresh) (o2 : Order)
    (h : o.mark_as_delivered fresh = ⟨.ok (), o2⟩) :
    o.status = .Shipped ∧
    o2 = { o with
      status := .Delivered,
      domain_events := o.domain_events ++ [DomainEvent.OrderDelivered
        (OrderDelivered.new fresh o.id)] } := by
  simp only [Order.mark_as_delivered] at h
  split_ifs at h with h1
  · simp at h
  · simp only [OpOut.mk.injEq] at h
    exact ⟨not_not.mp h1, h.2.symm⟩

/-- Claim C2 counterexample.  Order::reconstruct can produce a Confirmed order
without a shipping address; on it mark_as_shipped neither succeeds nor returns
a domain error: it panics.  So "mark_as_shipped succeeds iff status ==
Confirmed" is false for this Order. -/
theorem c2_counterexample :
    Order.reconstruct 7 8 [⟨9, 1, Money.jpy 100⟩] none .Confirmed
      = .ok ⟨7, 8, [⟨9, 1, Money.jpy 100⟩], none, .Confirmed, []⟩
    ∧ (⟨7, 8, [⟨9, 1, Money.jpy 100⟩], none, .Confirmed, []⟩ : Order).mark_as_shipped
        ⟨1, 1, 1⟩ = .panicked
    ∧ ¬ (((⟨7, 8, [⟨9, 1, Money.jpy 100⟩], none, .Confirmed, []⟩ : Order).mark_as_shipped
          ⟨1, 1, 1⟩).isOk = true ↔
        (⟨7, 8, [⟨9, 1, Money.jpy 100⟩], none, .Confirmed, []⟩ : Order).status
          = .Confirmed) := by
  refine ⟨rfl, rfl, ?_⟩
  decide

/-- Claim C2 (amended).  For every Order that carries a shipping address
whenever it is Confirmed (in particular every order built through the
aggregate methods, cf. C10): confirm succeeds iff status is Pending with at
least one line and an address; cancel succeeds iff status is Pending or
Confirmed; mark_as_shipped succeeds iff status is Confirmed; mark_as_delivered
succeeds iff status is Shipped; and every failing call returns a domain error
leaving the order (hence its status) unchanged.  Without the address proviso
the claim fails: see the counterexample, where mark_as_shipped panics. -/
theorem c2_order_state_machine (o : Order) (fresh : MetaFresh)
    (haddr : o.status = .Confirmed → o.shipping_address.isSome = true) :
    ((o.confirm fresh).result.isOk = true ↔
      (o.status = .Pending ∧ o.order_lines ≠ [] ∧ o.shipping_address.isSome = true))
    ∧ ((o.cancel fresh).result.isOk = true ↔
      (o.status = .Pending ∨ o.status = .Confirmed))
    ∧ ((o.mark_as_shipped fresh).isOk = true ↔ o.status = .Confirmed)
    ∧ ((o.mark_as_delivered fresh).result.isOk = true ↔ o.status = .Shipped)
    ∧ (∀ e, (o.confirm fresh).result = .error e → (o.confirm fresh).order = o)
    ∧ (∀ e, (o.cancel fresh).result = .error e → (o.cancel fresh).order = o)
    ∧ (∀ e o2, o.mark_as_shipped fresh = .ret (.error e) o2 → o2 = o)
    ∧ (∀ e, (o.mark_as_delivered fresh).result = .error e →
        (o.mark_as_delivered fresh).order = o) := by
  refine ⟨?_, ?_, ?_, ?_, ?_, ?_, ?_, ?_⟩
  · simp only [Order.confirm]
    split_ifs with h1 h2 h3
    · simp [Except.isOk, Except.toBool, h1]
    · simp [Except.isOk, Except.toBool, List.isEmpty_iff.mp h2]
    · cases hsa : o.shipping_address
      · simp [Except.isOk, Except.toBool, hsa]
      · rw [hsa] at h3; simp at h3
    · have h1p : o.status = .Pending := not_not.mp h1
      have h2p : o.order_lines ≠ [] := fun hnil => h2 (by simp [hnil])
      have h3p : o.shipping_address.isSome = true := by
        cases hsa : o.shipping_address
        · exact absurd (by simp [hsa]) h3
        · simp
      simp [Except.isOk, Except.toBool, h1p, h2p, h3p]
  · cases hstatus : o.status <;>
      simp [Order.cancel, Except.isOk, Except.toBool, hstatus]
  · simp only [Order.mark_as_shipped]
    split_ifs with h1
    · simp [ShipOut.isOk, h1]
    · have hconf : o.status = .Confirmed := not_not.mp h1
      obtain ⟨a, ha⟩ := Option.isSome_iff_exists.mp (haddr hconf)
      simp [ha, hconf, ShipOut.isOk]
  · simp only [Order.mark_as_delivered]
    split_ifs with h1
    · simp [Except.isOk, Except.toBool, h1]
    · simp [Except.isOk, Except.toBool, not_not.mp h1]
  · intro e he
    simp only [Order.confirm] at he ⊢
    split_ifs at he ⊢ <;> simp_all
  · intro e he
    cases hstatus : o.status <;> simp [Order.cancel, hstatus] at he ⊢
  · intro e o2 h
    simp only [Order.mark_as_shipped] at h
    split_ifs at h with h1
    · injection h with hres ho
      exact ho.symm
    · cases hsa : o.shipping_address <;> rw [hsa] at h <;> simp at h
  · intro e he
    simp only [Order.mark_as_delivered] at he ⊢
    split_ifs at he ⊢ <;> simp_all

/-- Witness for C2 at a concrete Confirmed order with an address. -/
theorem c2_order_state_machine_witness :
    ((⟨1, 2, [⟨3, 1, Money.jpy 500⟩],
        some ⟨"1234567", "Tokyo", "Shibuya", "1-1-1", none⟩,
        .Confirmed, []⟩ : Order).mark_as_shipped ⟨9, 9, 9⟩).isOk = true :=
  (c2_order_state_machine
    ⟨1, 2, [⟨3, 1, Money.jpy 500⟩],
      some ⟨"1234567", "Tokyo", "Shibuya", "1-1-1", none⟩, .Confirmed, []⟩
    ⟨9, 9, 9⟩ (fun _ => rfl)).2.2.1.mpr rfl

/-- A successful add_book merge raises the total ordered quantity by exactly
the added quantity. -/
theorem addBookToLines_sum (lines : List OrderLine) (b : Uuid) (q : Nat)
    (p : Money) (lines2 : List OrderLine)
    (h : addBookToLines lines b q p = .ok lines2) :
    (lines2.map OrderLine.quantity).sum = (lines.map OrderLine.quantity).sum + q := by
  induction lines generalizing lines2 with
  | nil =>
    simp only [addBookToLines, OrderLine.new] at h
    split_ifs at h with hq
    · simp [Except.map] at h
    · simp only [Except.map] at h
      cases h
      simp [OrderLine.quantity]
  | cons l rest ih =>
    simp only [addBookToLines] at h
    split_ifs at h with hb
    · simp only [OrderLine.increase_quantity] at h
      split_ifs at h with hq
      · simp [Except.map] at h
      · simp only [Except.map] at h
        cases h
        simp [OrderLine.quantity]
        omega
    · cases hrec : addBookToLines rest b q p with
      | error e => rw [hrec] at h; simp [Except.map] at h
      | ok rest2 =>
        rw [hrec] at h
        simp only [Except.map] at h
        cases h
        simp [ih rest2 hrec]
        omega

/-- Claim C9 counterexample.  Order::add_book succeeds on a fresh order but
appends no domain event at all, contradicting the claim that every successful
mutation appends exactly one event. -/
theorem c9_counterexample :
    ((Order.new 1 2).add_book 3 1 (Money.jpy 1000)).result = .ok ()
    ∧ ((Order.new 1 2).add_book 3 1 (Money.jpy 1000)).order.domain_events.length
        ≠ (Order.new 1 2).domain_events.length + 1 := by
  exact ⟨rfl, by decide⟩

/-- Claim C9 (amended).  The status-transition methods — confirm, cancel,
mark_as_shipped, mark_as_delivered — each change the status and append exactly
one domain event on success.  add_book and set_shipping_address mutate the
order (the total ordered quantity grows by the added quantity; the address is
set to the given value) but append no domain event. -/
theorem c9_mutations_and_events (o : Order) (fresh : MetaFresh) (book_id : Uuid)
    (quantity : Nat) (unit_price : Money) (address : ShippingAddress) :
    ((o.add_book book_id quantity unit_price).result = .ok () →
      (((o.add_book book_id quantity unit_price).order.order_lines.map
          OrderLine.quantity).sum = (o.order_lines.map OrderLine.quantity).sum + quantity)
      ∧ (o.add_book book_id quantity unit_price).order.domain_events = o.domain_events)
    ∧ ((o.set_shipping_address address).shipping_address = some address
      ∧ (o.set_shipping_address address).domain_events = o.domain_events)
    ∧ ((o.confirm fresh).result = .ok () →
      (o.confirm fresh).order.status = .Confirmed ∧ o.status = .Pending
      ∧ (o.confirm fresh).order.domain_events.length = o.domain_events.length + 1)
    ∧ ((o.cancel fresh).result = .ok () →
      (o.cancel fresh).order.status = .Cancelled
      ∧ (o.status = .Pending ∨ o.status = .Confirmed)
      ∧ (o.cancel fresh).order.domain_events.length = o.domain_events.length + 1)
    ∧ (∀ o2, o.mark_as_shipped fresh = .ret (.ok ()) o2 →
      o2.status = .Shipped ∧ o.status = .Confirmed
      ∧ o2.domain_events.length = o.domain_events.length + 1)
    ∧ ((o.mark_as_delivered fresh).result = .ok () →
      (o.mark_as_delivered fresh).order.status = .Delivered ∧ o.status = .Shipped
      ∧ (o.mark_as_delivered fresh).order.domain_events.length
          = o.domain_events.length + 1) := by
  refine ⟨?_, ⟨rfl, rfl⟩, ?_, ?_, ?_, ?_⟩
  · intro hok
    have h : o.add_book book_id quantity unit_price
        = ⟨.ok (), (o.add_book book_id quantity unit_price).order⟩ := by
      cases hd : o.add_book book_id quantity unit_price with
      | mk r o2 => rw [hd] at hok; cases hok; rfl
    obtain ⟨hq, lines, hlines, ho2⟩ :=
      Order.add_book_ok_elim o book_id quantity unit_price _ h
    constructor
    · rw [ho2]
      exact addBookToLines_sum o.order_lines book_id quantity unit_price lines hlines
    · rw [ho2]
  · intro hok
    have h : o.confirm fresh = ⟨.ok (), (o.confirm fresh).order⟩ := by
      cases hd : o.confirm fresh with
      | mk r o2 => rw [hd] at hok; cases hok; rfl
    obtain ⟨h1, h2, h3, ho2⟩ := Order.confirm_ok_elim o fresh _ h
    rw [ho2]
    exact ⟨rfl, h1, by simp⟩
  · intro hok
    have h : o.cancel fresh = ⟨.ok (), (o.cancel fresh).order⟩ := by
      cases hd : o.cancel fresh with
      | mk r o2 => rw [hd] at hok; cases hok; rfl
    obtain ⟨h1, ho2⟩ := Order.cancel_ok_elim o fresh _ h
    rw [ho2]
    exact ⟨rfl, h1, by simp⟩
  · intro o2 h
    obtain ⟨h1, a, ha, ho2⟩ := Order.mark_as_shipped_ok_elim o fresh o2 h
    rw [ho2]
    exact ⟨rfl, h1, by simp⟩
  · intro hok
    have h : o.mark_as_delivered fresh = ⟨.ok (), (o.mark_as_delivered fresh).order⟩ := by
      cases hd : o.mark_as_delivered fresh with
      | mk r o2 => rw [hd] at hok; cases hok; rfl
    obtain ⟨h1, ho2⟩ := Order.mark_as_delivered_ok_elim o fresh _ h
    rw [ho2]
    exact ⟨rfl, h1, by simp⟩

/-- Witness for C9 at a concrete order. -/
theorem c9_mutations_and_events_witness :
    (((Order.new 1 2).add_book 3 2 (Money.jpy 1000)).order.order_lines.map
        OrderLine.quantity).sum
      = ((Order.new 1 2).order_lines.map OrderLine.quantity).sum + 2 :=
  ((c9_mutations_and_events (Order.new 1 2) ⟨9, 9, 9⟩ 3 2 (Money.jpy 1000)
    ⟨"1234567", "Tokyo", "Shibuya", "1-1-1", none⟩).1 rfl).1

/-- The address invariant holds on every order reachable from Order::new:
once Confirmed, Shipped or Delivered, a shipping address is present. -/
theorem Order.reachable_address_invariant (o : Order) (hr : o.Reachable)
    (hs : o.status = .Confirmed ∨ o.status = .Shipped ∨ o.status = .Delivered) :
    o.shipping_address.isSome = true := by
  induction hr with
  | new id customer_id => simp [Order.new] at hs
  | add_book o b q p o2 hr h ih =>
    obtain ⟨hq, lines, hlines, ho2⟩ := Order.add_book_ok_elim o b q p o2 h
    subst ho2
    exact ih hs
  | set_shipping_address o address hr ih =>
    simp [Order.set_shipping_address]
  | confirm o fresh o2 hr h ih =>
    obtain ⟨h1, h2, h3, ho2⟩ := Order.confirm_ok_elim o fresh o2 h
    subst ho2
    exact h3
  | cancel o fresh o2 hr h ih =>
    obtain ⟨h1, ho2⟩ := Order.cancel_ok_elim o fresh o2 h
    subst ho2
    simp at hs
  | mark_as_shipped o fresh o2 hr h ih =>
    obtain ⟨h1, a, ha, ho2⟩ := Order.mark_as_shipped_ok_elim o fresh o2 h
    subst ho2
    simp [ha]
  | mark_as_delivered o fresh o2 hr h ih =>
    obtain ⟨h1, ho2⟩ := Order.mark_as_delivered_ok_elim o fresh o2 h
    subst ho2
    exact ih (Or.inr (Or.inl h1))

/-- Claim C10.  On every order reachable from Order::new through the aggregate
methods, a Confirmed, Shipped or Delivered status implies a shipping address
is present; hence the expect-panic branch of mark_as_shipped is unreachable
for such orders.  Order::reconstruct performs no such validation: it happily
rebuilds a Confirmed order with no address, for which the invariant fails. -/
theorem c10_reachable_orders_have_address :
    (∀ o : Order, o.Reachable →
      (o.status = .Confirmed ∨ o.status = .Shipped ∨ o.status = .Delivered) →
      o.shipping_address.isSome = true)
    ∧ (∀ (o : Order) (fresh : MetaFresh), o.Reachable →
      o.mark_as_shipped fresh ≠ .panicked)
    ∧ (Order.reconstruct 7 8 [⟨9, 1, Money.jpy 100⟩] none .Confirmed
        = .ok ⟨7, 8, [⟨9, 1, Money.jpy 100⟩], none, .Confirmed, []⟩
      ∧ (⟨7, 8, [⟨9, 1, Money.jpy 100⟩], none, .Confirmed, []⟩ : Order).status
          = .Confirmed
      ∧ (⟨7, 8, [⟨9, 1, Money.jpy 100⟩], none, .Confirmed, []⟩ : Order).shipping_address
          = none) := by
  refine ⟨Order.reachable_address_invariant, ?_, rfl, rfl, rfl⟩
  intro o fresh hr hpanic
  simp only [Order.mark_as_shipped] at hpanic
  split_ifs at hpanic with h1
  · cases hsa : o.shipping_address with
    | none =>
      have := Order.reachable_address_invariant o hr (Or.inl (not_not.mp h1))
      rw [hsa] at this
      simp at this
    | some a => rw [hsa] at hpanic; simp at hpanic

/-- Witness for C10: a concrete order confirmed through the aggregate methods
keeps its shipping address. -/
theorem c10_reachable_orders_have_address_witness :
    ((((Order.new 1 2).set_shipping_address
        ⟨"1234567", "Tokyo", "Shibuya", "1-1-1", none⟩).add_book 3 2
        (Money.jpy 1000)).order.confirm ⟨9, 9, 9⟩).order.shipping_address.isSome
      = true := by
  have h1 : Order.Reachable ((Order.new 1 2).set_shipping_address
      ⟨"1234567", "Tokyo", "Shibuya", "1-1-1", none⟩) :=
    Order.Reachable.set_shipping_address _ _ (Order.Reachable.new 1 2)
  have h2 : Order.Reachable (((Order.new 1 2).set_shipping_address
      ⟨"1234567", "Tokyo", "Shibuya", "1-1-1", none⟩).add_book 3 2
      (Money.jpy 1000)).order :=
    Order.Reachable.add_book _ 3 2 (Money.jpy 1000) _ h1 rfl
  have h3 : Order.Reachable (((((Order.new 1 2).set_shipping_address
      ⟨"1234567", "Tokyo", "Shibuya", "1-1-1", none⟩).add_book 3 2
      (Money.jpy 1000)).order.confirm ⟨9, 9, 9⟩).order) :=
    Order.Reachable.confirm _ ⟨9, 9, 9⟩ _ h2 rfl
  exact c10_reachable_orders_have_address.1 _ h3 (Or.inl rfl)

/-- Marking an event processed makes is_processed true for it. -/
theorem SagaState.mark_is_processed (st : SagaState) (e : Uuid) :
    (st.mark_processed e).is_processed e = true := by
  simp [SagaState.mark_processed, SagaState.is_processed]

/-- A delivery of an already-processed event is skipped: the handler returns
Ok and the world is untouched. -/
theorem InventoryReservationHandler.handle_skip (ev : OrderConfirmed)
    (st : SagaState) (hp : st.is_processed ev.metadata.event_id = true) :
    InventoryReservationHandler.handle ev st = ⟨.ok (), st⟩ := by
  simp [InventoryReservationHandler.handle, hp]

/-- decodeNat inverts encodeNat. -/
theorem decodeNat_encodeNat (n : Nat) : decodeNat (encodeNat n) = some n := rfl

/-- decodeStringPairs inverts encodeStringPairs. -/
theorem decodeStringPairs_encode (m : List (String × String)) :
    decodeStringPairs (encodeStringPairs m) = some m := by
  simp only [encodeStringPairs, decodeStringPairs]
  induction m with
  | nil => rfl
  | cons p rest ih =>
    simp only [List.map_cons, List.mapM_cons]
    rw [ih]
    rfl

/-- decodeMetadata inverts encodeMetadata. -/
theorem decodeMetadata_encode (m : EventMetadata) :
    decodeMetadata (encodeMetadata m) = some m := by
  simp [encodeMetadata, decodeMetadata, Json.getField, List.lookup, decodeNat,
    encodeNat, decodeStringPairs_encode]

/-- decodeCurrency inverts encodeCurrency. -/
theorem decodeCurrency_encode (c : Currency) :
    decodeCurrency (encodeCurrency c) = some c := by
  cases c <;> rfl

/-- decodeMoney inverts encodeMoney. -/
theorem decodeMoney_encode (m : Money) : decodeMoney (encodeMoney m) = some m := by
  cases m with
  | mk amount currency =>
    cases currency
    simp [encodeMoney, decodeMoney, Json.getField, List.lookup, decodeInt,
      encodeCurrency, decodeCurrency]

/-- decodeOrderLine inverts encodeOrderLine. -/
theorem decodeOrderLine_encode (l : OrderLine) :
    decodeOrderLine (encodeOrderLine l) = some l := by
  simp [encodeOrderLine, decodeOrderLine, Json.getField, List.lookup, decodeNat,
    encodeNat, decodeMoney_encode]

/-- decodeOptString inverts encodeOptString. -/
theorem decodeOptString_encode (s : Option String) :
    decodeOptString (encodeOptString s) = some s := by
  cases s <;> rfl

/-- decodeAddress inverts encodeAddress. -/
theorem decodeAddress_encode (a : ShippingAddress) :
    decodeAddress (encodeAddress a) = some a := by
  simp [encodeAddress, decodeAddress, Json.getField, List.lookup, decodeStr,
    decodeOptString_encode]

/-- decodeJsonList inverts encodeJsonList given inverse element codecs. -/
theorem decodeJsonList_encode (f : α → Json) (g : Json → Option α)
    (hfg : ∀ a, g (f a) = some a) (xs : List α) :
    decodeJsonList g (encodeJsonList f xs) = some xs := by
  simp only [encodeJsonList, decodeJsonList]
  induction xs with
  | nil => rfl
  | cons a rest ih =>
    simp only [List.map_cons, List.mapM_cons]
    rw [ih]
    simp [hfg a]

/-- decodeStrList inverts encodeStrList. -/
theorem decodeStrList_encode (xs : List String) :
    decodeStrList (encodeStrList xs) = some xs := by
  simp only [encodeStrList, decodeStrList]
  induction xs with
  | nil => rfl
  | cons s rest ih =>
    simp only [List.map_cons, List.mapM_cons]
    rw [ih]
    rfl

/-- decodeCompensationResult inverts encodeCompensationResult. -/
theorem decodeCompensationResult_encode (r : CompensationResult) :
    decodeCompensationResult (encodeCompensationResult r) = some r := by
  cases r with
  | Success => rfl
  | PartialSuccess failed_steps =>
    simp [encodeCompensationResult, decodeCompensationResult, Json.getField,
      List.lookup, decodeStrList_encode]
  | Failed error_message =>
    simp [encodeCompensationResult, decodeCompensationResult, Json.getField,
      List.lookup, decodeStr]

/-- decodeOrderConfirmed inverts encodeOrderConfirmed. -/
theorem decodeOrderConfirmed_encode (p : OrderConfirmed) :
    decodeOrderConfirmed (encodeOrderConfirmed p) = some p := by
  simp [encodeOrderConfirmed, decodeOrderConfirmed, Json.getField, List.lookup,
    decodeMetadata_encode, decodeNat, encodeNat, decodeMoney_encode,
    decodeJsonList_encode encodeOrderLine decodeOrderLine decodeOrderLine_encode]

/-- decodeOrderCancelled inverts encodeOrderCancelled. -/
theorem decodeOrderCancelled_encode (p : OrderCancelled) :
    decodeOrderCancelled (encodeOrderCancelled p) = some p := by
  simp [encodeOrderCancelled, decodeOrderCancelled, Json.getField, List.lookup,
    decodeMetadata_encode, decodeNat, encodeNat,
    decodeJsonList_encode encodeOrderLine decodeOrderLine decodeOrderLine_encode]

/-- decodeOrderShipped inverts encodeOrderShipped. -/
theorem decodeOrderShipped_encode (p : OrderShipped) :
    decodeOrderShipped (encodeOrderShipped p) = some p := by
  simp [encodeOrderShipped, decodeOrderShipped, Json.getField, List.lookup,
    decodeMetadata_encode, decodeNat, encodeNat, decodeAddress_encode]

/-- decodeOrderDelivered inverts encodeOrderDelivered. -/
theorem decodeOrderDelivered_encode (p : OrderDelivered) :
    decodeOrderDelivered (encodeOrderDelivered p) = some p := by
  simp [encodeOrderDelivered, decodeOrderDelivered, Json.getField, List.lookup,
    decodeMetadata_encode, decodeNat, encodeNat]

/-- decodeInventoryReserved inverts encodeInventoryReserved. -/
theorem decodeInventoryReserved_encode (p : InventoryReserved) :
    decodeInventoryReserved (encodeInventoryReserved p) = some p := by
  simp [encodeInventoryReserved, decodeInventoryReserved, Json.getField, List.lookup,
    decodeMetadata_encode, decodeNat, encodeNat,
    decodeJsonList_encode encodeOrderLine decodeOrderLine decodeOrderLine_encode]

/-- decodeInventoryReleased inverts encodeInventoryReleased. -/
theorem decodeInventoryReleased_encode (p : InventoryReleased) :
    decodeInventoryReleased (encodeInventoryReleased p) = some p := by
  simp [encodeInventoryReleased, decodeInventoryReleased, Json.getField, List.lookup,
    decodeMetadata_encode, decodeNat, encodeNat,
    decodeJsonList_encode encodeOrderLine decodeOrderLine decodeOrderLine_encode]

/-- decodeInventoryReservationFailed inverts encodeInventoryReservationFailed. -/
theorem decodeInventoryReservationFailed_encode (p : InventoryReservationFailed) :
    decodeInventoryReservationFailed (encodeInventoryReservationFailed p) = some p := by
  simp [encodeInventoryReservationFailed, decodeInventoryReservationFailed,
    Json.getField, List.lookup, decodeMetadata_encode, decodeNat, encodeNat, decodeStr,
    decodeJsonList_encode encodeOrderLine decodeOrderLine decodeOrderLine_encode]

/-- decodeShippingFailed inverts encodeShippingFailed. -/
theorem decodeShippingFailed_encode (p : ShippingFailed) :
    decodeShippingFailed (encodeShippingFailed p) = some p := by
  simp [encodeShippingFailed, decodeShippingFailed, Json.getField, List.lookup,
    decodeMetadata_encode, decodeNat, encodeNat, decodeStr]

/-- decodeDeliveryFailed inverts encodeDeliveryFailed. -/
theorem decodeDeliveryFailed_encode (p : DeliveryFailed) :
    decodeDeliveryFailed (encodeDeliveryFailed p) = some p := by
  simp [encodeDeliveryFailed, decodeDeliveryFailed, Json.getField, List.lookup,
    decodeMetadata_encode, decodeNat, encodeNat, decodeStr]

/-- decodeSagaCompensationStarted inverts encodeSagaCompensationStarted. -/
theorem decodeSagaCompensationStarted_encode (p : SagaCompensationStarted) :
    decodeSagaCompensationStarted (encodeSagaCompensationStarted p) = some p := by
  simp [encodeSagaCompensationStarted, decodeSagaCompensationStarted, Json.getField,
    List.lookup, decodeMetadata_encode, decodeNat, encodeNat, decodeStr,
    decodeStrList_encode]

/-- decodeSagaCompensationCompleted inverts encodeSagaCompensationCompleted. -/
theorem decodeSagaCompensationCompleted_encode (p : SagaCompensationCompleted) :
    decodeSagaCompensationCompleted (encodeSagaCompensationCompleted p) = some p := by
  simp [encodeSagaCompensationCompleted, decodeSagaCompensationCompleted,
    Json.getField, List.lookup, decodeMetadata_encode, decodeNat, encodeNat,
    decodeStrList_encode, decodeCompensationResult_encode]

/-- decodeDomainEvent inverts encodeDomainEvent. -/
theorem decodeDomainEvent_encode (e : DomainEvent) :
    decodeDomainEvent (encodeDomainEvent e) = some e := by
  cases e <;>
    simp [encodeDomainEvent, decodeDomainEvent, Json.getField, List.lookup,
      decodeOrderConfirmed_encode, decodeOrderCancelled_encode,
      decodeOrderShipped_encode, decodeOrderDelivered_encode,
      decodeInventoryReserved_encode, decodeInventoryReleased_encode,
      decodeInventoryReservationFailed_encode, decodeShippingFailed_encode,
      decodeDeliveryFailed_encode, decodeSagaCompensationStarted_encode,
      decodeSagaCompensationCompleted_encode]

/-- The encoded envelope always carries event_type and event_data, so the
post-encoding validation passes. -/
theorem validate_serialized_json_encode (e : DomainEvent) :
    EventSerializer.validate_serialized_json (encodeDomainEvent e) e = .ok () := by
  cases e <;> rfl

/-- The schema version read back out of an encoded envelope is the version of
the original metadata. -/
theorem encode_version_path (e : DomainEvent) :
    ((((encodeDomainEvent e).getField "event_data").bind
        (fun data => data.getField "metadata")).bind
      (fun metadata => (metadata.getField "event_version").bind decodeNat))
    = some e.metadata.event_version := by
  cases e <;>
    simp [encodeDomainEvent, encodeOrderConfirmed, encodeOrderCancelled,
      encodeOrderShipped, encodeOrderDelivered, encodeInventoryReserved,
      encodeInventoryReleased, encodeInventoryReservationFailed,
      encodeShippingFailed, encodeDeliveryFailed, encodeSagaCompensationStarted,
      encodeSagaCompensationCompleted, encodeMetadata, Json.getField, List.lookup,
      decodeNat, encodeNat, DomainEvent.metadata]

/-- A serializable event has non-nil metadata ids. -/
theorem pre_validation_ids (e : DomainEvent)
    (h : EventSerializer.validate_event_before_serialization e = .ok ()) :
    e.metadata.event_id ≠ 0 ∧ e.metadata.correlation_id ≠ 0 := by
  simp only [EventSerializer.validate_event_before_serialization] at h
  split_ifs at h with h1 h2
  exact ⟨by simpa using h1, by simpa using h2⟩

/-- Claim C7.  For every DomainEvent on which serialize_event succeeds,
deserialize_event on the produced JSON succeeds and reproduces the original
event_type, event_id and correlation_id (in fact the whole event). -/
theorem c7_serialization_roundtrip (e : DomainEvent) (j : Json)
    (h : EventSerializer.new.serialize_event e = .ok j) :
    ∃ e2, EventSerializer.new.deserialize_event j = .ok e2
      ∧ e2.event_type = e.event_type
      ∧ e2.metadata.event_id = e.metadata.event_id
      ∧ e2.metadata.correlation_id = e.metadata.correlation_id := by
  simp only [EventSerializer.serialize_event] at h
  split_ifs at h with hv
  have hsup : EventSerializer.new.supports e.metadata.event_version = true := hv
  cases hpre : EventSerializer.validate_event_before_serialization e with
  | error er => rw [hpre] at h; simp at h
  | ok u =>
    rw [hpre] at h
    rw [validate_serialized_json_encode e] at h
    simp only [Except.ok.injEq] at h
    subst h
    obtain ⟨hid, hcid⟩ := pre_validation_ids e (by cases u; exact hpre)
    refine ⟨e, ?_, rfl, rfl, rfl⟩
    have hschema : EventSerializer.new.validate_schema_compatibility
        (encodeDomainEvent e) = .ok () := by
      simp only [EventSerializer.validate_schema_compatibility]
      rw [encode_version_path e]
      simp [hsup]
    simp only [EventSerializer.deserialize_event]
    rw [hschema, decodeDomainEvent_encode e]
    simp [EventSerializer.validate_deserialized_event, hid, hcid]

/-- Witness for C7 at a concrete event with non-nil ids. -/
theorem c7_serialization_roundtrip_witness :
    EventSerializer.new.serialize_event (.OrderDelivered ⟨⟨1, 0, 2, 1, []⟩, 5⟩)
      = .ok (encodeDomainEvent (.OrderDelivered ⟨⟨1, 0, 2, 1, []⟩, 5⟩))
    ∧ ∃ e2, EventSerializer.new.deserialize_event
          (encodeDomainEvent (.OrderDelivered ⟨⟨1, 0, 2, 1, []⟩, 5⟩)) = .ok e2
        ∧ e2.event_type = (DomainEvent.OrderDelivered ⟨⟨1, 0, 2, 1, []⟩, 5⟩).event_type
        ∧ e2.metadata.event_id
            = (DomainEvent.OrderDelivered ⟨⟨1, 0, 2, 1, []⟩, 5⟩).metadata.event_id
        ∧ e2.metadata.correlation_id
            = (DomainEvent.OrderDelivered ⟨⟨1, 0, 2, 1, []⟩, 5⟩).metadata.correlation_id :=
  ⟨rfl, c7_serialization_roundtrip (.OrderDelivered ⟨⟨1, 0, 2, 1, []⟩, 5⟩) _ rfl⟩

/-- A publish whose serialization self-check passes appends the event to the
published list and changes nothing else. -/
theorem SagaState.publish_event_of_valid (st : SagaState) (e : DomainEvent)
    (hval : validate_event_serialization e = .ok ()) :
    st.publish_event e = .ok { st with published := st.published ++ [e] } := by
  simp [SagaState.publish_event, hval]

/-- serialize_event succeeds on a version-1 event passing the
pre-serialization validation, and produces the event's JSON encoding. -/
theorem serialize_event_ok_of_valid (e : DomainEvent)
    (hv : e.metadata.event_version = 1)
    (hpre : EventSerializer.validate_event_before_serialization e = .ok ()) :
    EventSerializer.new.serialize_event e = .ok (encodeDomainEvent e) := by
  have hsup : EventSerializer.new.supports e.metadata.event_version = true := by
    rw [hv]; rfl
  simp only [EventSerializer.serialize_event]
  rw [if_neg (by simp [hsup]), hpre, validate_serialized_json_encode e]

/-- deserialize_event inverts the encoding of a version-1 event with non-nil
metadata ids. -/
theorem deserialize_event_encode_ok (e : DomainEvent)
    (hv : e.metadata.event_version = 1)
    (hid : e.metadata.event_id ≠ 0) (hcorr : e.metadata.correlation_id ≠ 0) :
    EventSerializer.new.deserialize_event (encodeDomainEvent e) = .ok e := by
  have hsup : EventSerializer.new.supports e.metadata.event_version = true := by
    rw [hv]; rfl
  have hschema : EventSerializer.new.validate_schema_compatibility
      (encodeDomainEvent e) = .ok () := by
    simp only [EventSerializer.validate_schema_compatibility]
    rw [encode_version_path e]
    simp [hsup]
  simp only [EventSerializer.deserialize_event]
  rw [hschema, decodeDomainEvent_encode e]
  simp [EventSerializer.validate_deserialized_event, hid, hcorr]

/-- The bus round-trip self-check passes on a version-1 event with non-nil
metadata ids that passes the pre-serialization validation. -/
theorem validate_event_serialization_ok (e : DomainEvent)
    (hv : e.metadata.event_version = 1)
    (hid : e.metadata.event_id ≠ 0) (hcorr : e.metadata.correlation_id ≠ 0)
    (hpre : EventSerializer.validate_event_before_serialization e = .ok ()) :
    validate_event_serialization e = .ok () := by
  simp only [validate_event_serialization,
    serialize_event_ok_of_valid e hv hpre,
    deserialize_event_encode_ok e hv hid hcorr]

/-- Pre-serialization validation passes on an InventoryReservationFailed
event with non-nil metadata ids. -/
theorem pre_validation_reservation_failed (p : InventoryReservationFailed)
    (hid : p.metadata.event_id ≠ 0) (hcorr : p.metadata.correlation_id ≠ 0) :
    EventSerializer.validate_event_before_serialization
      (.InventoryReservationFailed p) = .ok () := by
  simp [EventSerializer.validate_event_before_serialization, DomainEvent.metadata,
    hid, hcorr]

/-- Pre-serialization validation passes on an OrderCancelled event with
non-nil metadata ids. -/
theorem pre_validation_order_cancelled (p : OrderCancelled)
    (hid : p.metadata.event_id ≠ 0) (hcorr : p.metadata.correlation_id ≠ 0) :
    EventSerializer.validate_event_before_serialization
      (.OrderCancelled p) = .ok () := by
  simp [EventSerializer.validate_event_before_serialization, DomainEvent.metadata,
    hid, hcorr]

/-- Pre-serialization validation passes on an InventoryReserved event with
non-nil metadata ids and at least one order line. -/
theorem pre_validation_inventory_reserved (p : InventoryReserved)
    (hid : p.metadata.event_id ≠ 0) (hcorr : p.metadata.correlation_id ≠ 0)
    (hlines : p.order_lines ≠ []) :
    EventSerializer.validate_event_before_serialization
      (.InventoryReserved p) = .ok () := by
  simp [EventSerializer.validate_event_before_serialization, DomainEvent.metadata,
    hid, hcorr, hlines]

/-- An InventoryReserved event built by with_correlation_id from a non-nil
fresh id, a non-nil correlation id and nonempty lines passes the bus
self-check. -/
theorem inventory_reserved_publish_valid (fresh : MetaFresh) (oid : Uuid)
    (lines : List OrderLine) (corr : Uuid) (hfid : fresh.event_id ≠ 0)
    (hcorr : corr ≠ 0) (hlines : lines ≠ []) :
    validate_event_serialization (.InventoryReserved
      (InventoryReserved.with_correlation_id fresh oid lines corr)) = .ok () :=
  validate_event_serialization_ok _ rfl hfid hcorr
    (pre_validation_inventory_reserved _ hfid hcorr hlines)

/-- An InventoryReservationFailed event built by with_correlation_id from a
non-nil fresh id and a non-nil correlation id passes the bus self-check. -/
theorem reservation_failed_publish_valid (fresh : MetaFresh) (oid : Uuid)
    (lines : List OrderLine) (reason : String) (trigger corr : Uuid)
    (hfid : fresh.event_id ≠ 0) (hcorr : corr ≠ 0) :
    validate_event_serialization (.InventoryReservationFailed
      (InventoryReservationFailed.with_correlation_id fresh oid lines reason
        trigger corr)) = .ok () :=
  validate_event_serialization_ok _ rfl hfid hcorr
    (pre_validation_reservation_failed _ hfid hcorr)

/-- An OrderCancelled event built by with_correlation_id from a non-nil fresh
id and a non-nil correlation id passes the bus self-check. -/
theorem order_cancelled_publish_valid (fresh : MetaFresh) (oid cid : Uuid)
    (lines : List OrderLine) (corr : Uuid)
    (hfid : fresh.event_id ≠ 0) (hcorr : corr ≠ 0) :
    validate_event_serialization (.OrderCancelled
      (OrderCancelled.with_correlation_id fresh oid cid lines corr)) = .ok () :=
  validate_event_serialization_ok _ rfl hfid hcorr
    (pre_validation_order_cancelled _ hfid hcorr)

/-- On an event with nonempty lines and a non-nil correlation id every
publish inside the reservation loop passes the self-check, and both exits of
the loop mark exactly the incoming event as processed. -/
theorem reserveOrderLines_processed (ev : OrderConfirmed)
    (hlines : ev.order_lines ≠ []) (hcorr : ev.metadata.correlation_id ≠ 0)
    (lines : List OrderLine) : ∀ st : SagaState,
    (reserveOrderLines ev st lines).state.processed
      = st.processed ++ [ev.metadata.event_id] := by
  induction lines with
  | nil =>
    intro st
    have hval := inventory_reserved_publish_valid
      ⟨st.next_fresh + 1, st.next_fresh + 1, st.next_fresh + 1⟩ ev.order_id
      ev.order_lines ev.metadata.correlation_id (by simp) hcorr hlines
    simp [reserveOrderLines, SagaState.draw, SagaState.publish_event, hval,
      SagaState.mark_processed]
  | cons line rest ih =>
    intro st
    simp only [reserveOrderLines]
    cases hres : ((st.inventories.lookup line.book_id).getD
        (Inventory.new line.book_id 0)).reserve line.quantity with
    | mk r inv2 =>
      cases r with
      | ok u => exact ih _
      | error e =>
        have hval := reservation_failed_publish_valid
          ⟨st.next_fresh + 1, st.next_fresh + 1, st.next_fresh + 1⟩ ev.order_id
          ev.order_lines ("insufficient stock: " ++ e.display) ev.metadata.event_id
          ev.metadata.correlation_id (by simp) hcorr
        simp [SagaState.draw, SagaState.publish_event, hval,
          SagaState.mark_processed]

/-- A state on which the handler acts as the identity is a fixed point of
every iteration. -/
theorem InventoryReservationHandler.iterate_fixed (ev : OrderConfirmed)
    (s : SagaState) (hfix : (InventoryReservationHandler.handle ev s).state = s) :
    ∀ n, InventoryReservationHandler.iterate ev n s = s := by
  intro n
  induction n with
  | zero => rfl
  | succ m ih =>
    show InventoryReservationHandler.iterate ev m
      (InventoryReservationHandler.handle ev s).state = s
    rw [hfix]
    exact ih

/-- Iterating on a state that already tracks the event id changes nothing. -/
theorem InventoryReservationHandler.iterate_skip (ev : OrderConfirmed)
    (s : SagaState) (hp : s.is_processed ev.metadata.event_id = true) (n : Nat) :
    InventoryReservationHandler.iterate ev n s = s :=
  InventoryReservationHandler.iterate_fixed ev s
    (by rw [InventoryReservationHandler.handle_skip ev s hp]) n

/-- The success exit of the reservation loop never touches the inventories:
on an event with no order lines the loop goes straight to the publish. -/
theorem reserveOrderLines_nil_inventories (ev : OrderConfirmed) (st : SagaState) :
    (reserveOrderLines ev st []).state.inventories = st.inventories := by
  simp only [reserveOrderLines, SagaState.draw, SagaState.publish_event]
  cases validate_event_serialization (.InventoryReserved
      (InventoryReserved.with_correlation_id
        ⟨st.next_fresh + 1, st.next_fresh + 1, st.next_fresh + 1⟩ ev.order_id
        ev.order_lines ev.metadata.correlation_id)) <;>
    simp [SagaState.mark_processed]

/-- On an event with no order lines the handler never touches the
inventories, whichever branch it takes. -/
theorem handle_inventories_of_empty (ev : OrderConfirmed) (st : SagaState)
    (hlines : ev.order_lines = []) :
    (InventoryReservationHandler.handle ev st).state.inventories
      = st.inventories := by
  by_cases hp : st.is_processed ev.metadata.event_id
  · simp [InventoryReservationHandler.handle, hp]
  · cases hlook : st.orders.lookup ev.order_id with
    | none => simp [InventoryReservationHandler.handle, hp, hlook]
    | some order =>
      by_cases hstat : order.status = .Confirmed
      · have hh : InventoryReservationHandler.handle ev st
            = reserveOrderLines ev st ev.order_lines := by
          simp [InventoryReservationHandler.handle, hp, hlook, hstat]
        rw [hh, hlines]
        exact reserveOrderLines_nil_inventories ev st
      · simp [InventoryReservationHandler.handle, hp, hlook, hstat,
          SagaState.mark_processed]

/-- On an event with no order lines no number of deliveries touches the
inventories. -/
theorem iterate_inventories_of_empty (ev : OrderConfirmed)
    (hlines : ev.order_lines = []) (n : Nat) : ∀ st : SagaState,
    (InventoryReservationHandler.iterate ev n st).inventories
      = st.inventories := by
  induction n with
  | zero => intro st; rfl
  | succ m ih =>
    intro st
    show (InventoryReservationHandler.iterate ev m
      (InventoryReservationHandler.handle ev st).state).inventories
        = st.inventories
    rw [ih, handle_inventories_of_empty ev st hlines]

/-- Counterexample to claim C3 as stated: an OrderConfirmed event carrying a
nil correlation_id.  The handler reserves the stock, then its
InventoryReserved publish fails the bus serialization self-check (nil
correlation ids are rejected), so the handler returns ProcessingFailed before
reaching mark_processed; a second delivery of the same event_id reserves the
stock again.  Two deliveries leave 6 on hand where one delivery leaves 8, so
the final inventory state after N = 2 deliveries differs from the state after
one. -/
theorem c3_counterexample :
    (InventoryReservationHandler.iterate
        ⟨⟨5, 0, 0, 1, []⟩, 1, 2, [⟨3, 2, Money.jpy 1000⟩], Money.jpy 2000⟩ 2
        ⟨[(1, ⟨1, 2, [⟨3, 2, Money.jpy 1000⟩],
            some ⟨"1234567", "Tokyo", "Shibuya", "1-1-1", none⟩, .Confirmed, []⟩)],
          [(3, ⟨3, 10⟩)], [], [], 100⟩).inventories = [(3, ⟨3, 6⟩)]
    ∧ (InventoryReservationHandler.handle
        ⟨⟨5, 0, 0, 1, []⟩, 1, 2, [⟨3, 2, Money.jpy 1000⟩], Money.jpy 2000⟩
        ⟨[(1, ⟨1, 2, [⟨3, 2, Money.jpy 1000⟩],
            some ⟨"1234567", "Tokyo", "Shibuya", "1-1-1", none⟩, .Confirmed, []⟩)],
          [(3, ⟨3, 10⟩)], [], [], 100⟩).state.inventories = [(3, ⟨3, 8⟩)]
    ∧ ([(3, (⟨3, 6⟩ : Inventory))] : List (Uuid × Inventory)) ≠ [(3, ⟨3, 8⟩)] :=
  ⟨by decide, by decide, by decide⟩

/-- Claim C3 (amended).  For every OrderConfirmed event whose metadata
carries a non-nil correlation_id — per the metadata invariant every event
leaving an aggregate does — delivering the event to the
InventoryReservationHandler N ≥ 1 times leaves the same inventory state as
delivering it once, and any state that tracks the event_id as processed
absorbs redeliveries: the handler returns Ok and changes nothing.  (With a
nil correlation_id the follow-up publish fails the bus self-check before
mark_processed and a redelivery reserves the stock again: see the
counterexample.) -/
theorem c3_inventory_reservation_idempotent (ev : OrderConfirmed)
    (st : SagaState) (hcorr : ev.metadata.correlation_id ≠ 0)
    (N : Nat) (hN : 1 ≤ N) :
    (InventoryReservationHandler.iterate ev N st).inventories
      = (InventoryReservationHandler.handle ev st).state.inventories
    ∧ ∀ s : SagaState, s.is_processed ev.metadata.event_id = true →
        InventoryReservationHandler.handle ev s = ⟨.ok (), s⟩ := by
  refine ⟨?_, fun s hp => InventoryReservationHandler.handle_skip ev s hp⟩
  by_cases hlines : ev.order_lines = []
  · rw [iterate_inventories_of_empty ev hlines N st,
      handle_inventories_of_empty ev st hlines]
  · obtain ⟨m, rfl⟩ : ∃ m, N = m + 1 := ⟨N - 1, by omega⟩
    show (InventoryReservationHandler.iterate ev m
        (InventoryReservationHandler.handle ev st).state).inventories
      = (InventoryReservationHandler.handle ev st).state.inventories
    by_cases hp : st.is_processed ev.metadata.event_id
    · have hst : (InventoryReservationHandler.handle ev st).state = st := by
        rw [InventoryReservationHandler.handle_skip ev st hp]
      rw [hst, InventoryReservationHandler.iterate_skip ev st hp m]
    · cases hlook : st.orders.lookup ev.order_id with
      | none =>
        have hst : (InventoryReservationHandler.handle ev st).state = st := by
          simp [InventoryReservationHandler.handle, hp, hlook]
        rw [hst, InventoryReservationHandler.iterate_fixed ev st (by
          simp [InventoryReservationHandler.handle, hp, hlook]) m]
      | some order =>
        by_cases hstat : order.status = .Confirmed
        · have hmk : ((InventoryReservationHandler.handle ev st).state).is_processed
              ev.metadata.event_id = true := by
            have hh : InventoryReservationHandler.handle ev st
                = reserveOrderLines ev st ev.order_lines := by
              simp [InventoryReservationHandler.handle, hp, hlook, hstat]
            rw [hh]
            simp [SagaState.is_processed,
              reserveOrderLines_processed ev hlines hcorr ev.order_lines st]
          rw [InventoryReservationHandler.iterate_skip ev _ hmk m]
        · have hmk : ((InventoryReservationHandler.handle ev st).state).is_processed
              ev.metadata.event_id = true := by
            have hh : (InventoryReservationHandler.handle ev st).state
                = st.mark_processed ev.metadata.event_id := by
              simp [InventoryReservationHandler.handle, hp, hlook, hstat]
            rw [hh]
            exact SagaState.mark_is_processed st ev.metadata.event_id
          rw [InventoryReservationHandler.iterate_skip ev _ hmk m]

/-- Witness for the amended C3 at a concrete world (correlation id 6) and
N = 3. -/
theorem c3_inventory_reservation_idempotent_witness :
    (InventoryReservationHandler.iterate
        ⟨⟨5, 0, 6, 1, []⟩, 1, 2, [⟨3, 2, Money.jpy 1000⟩], Money.jpy 2000⟩ 3
        ⟨[(1, ⟨1, 2, [⟨3, 2, Money.jpy 1000⟩],
            some ⟨"1234567", "Tokyo", "Shibuya", "1-1-1", none⟩, .Confirmed, []⟩)],
          [(3, ⟨3, 10⟩)], [], [], 100⟩).inventories
      = (InventoryReservationHandler.handle
          ⟨⟨5, 0, 6, 1, []⟩, 1, 2, [⟨3, 2, Money.jpy 1000⟩], Money.jpy 2000⟩
          ⟨[(1, ⟨1, 2, [⟨3, 2, Money.jpy 1000⟩],
              some ⟨"1234567", "Tokyo", "Shibuya", "1-1-1", none⟩, .Confirmed, []⟩)],
            [(3, ⟨3, 10⟩)], [], [], 100⟩).state.inventories :=
  (c3_inventory_reservation_idempotent
    ⟨⟨5, 0, 6, 1, []⟩, 1, 2, [⟨3, 2, Money.jpy 1000⟩], Money.jpy 2000⟩
    ⟨[(1, ⟨1, 2, [⟨3, 2, Money.jpy 1000⟩],
        some ⟨"1234567", "Tokyo", "Shibuya", "1-1-1", none⟩, .Confirmed, []⟩)],
      [(3, ⟨3, 10⟩)], [], [], 100⟩ (by decide) 3 (by omega)).1

/-- Claim C1.  Start from an Inventory record of 2 on hand for a book and a
Confirmed order whose single line requests 5 of that book, with an
OrderConfirmed event whose correlation id is non-nil (per the metadata
invariant every event leaving an aggregate has one).  Running the
InventoryReservationHandler on the event publishes exactly one
InventoryReservationFailed compensation event and returns a domain error;
running the InventoryReservationFailureCompensationHandler on that event
leaves the order Cancelled and the inventory untouched at 2. -/
theorem c1_saga_compensation_end_to_end (book_id order_id customer_id : Uuid)
    (price total : Money) (address : ShippingAddress) (meta : EventMetadata)
    (devts : List DomainEvent) (c : Nat) (hcorr : meta.correlation_id ≠ 0) :
    let line : OrderLine := ⟨book_id, 5, price⟩
    let order : Order :=
      ⟨order_id, customer_id, [line], some address, .Confirmed, devts⟩
    let st0 : SagaState :=
      ⟨[(order_id, order)], [(book_id, ⟨book_id, 2⟩)], [], [], c⟩
    let ev : OrderConfirmed := ⟨meta, order_id, customer_id, [line], total⟩
    let failure : InventoryReservationFailed :=
      InventoryReservationFailed.with_correlation_id ⟨c + 1, c + 1, c + 1⟩
        order_id [line]
        ("insufficient stock: " ++ DomainError.InsufficientInventory.display)
        meta.event_id meta.correlation_id
    let st1 := (InventoryReservationHandler.handle ev st0).state
    let st2 := (InventoryReservationFailureCompensationHandler.handle failure st1).state
    st1.published = [DomainEvent.InventoryReservationFailed failure]
    ∧ (InventoryReservationHandler.handle ev st0).result
        = .error (.DomainError
            ("inventory reservation error: " ++ DomainError.InsufficientInventory.display))
    ∧ (st2.orders.lookup order_id).map Order.status = some OrderStatus.Cancelled
    ∧ st2.inventories.lookup book_id = some ⟨book_id, 2⟩ := by
  intro line order st0 ev failure st1 st2
  have hval1 : validate_event_serialization (.InventoryReservationFailed
      (InventoryReservationFailed.with_correlation_id ⟨c + 1, c + 1, c + 1⟩
        order_id [⟨book_id, 5, price⟩]
        ("insufficient stock: " ++ DomainError.InsufficientInventory.display)
        meta.event_id meta.correlation_id)) = .ok () :=
    reservation_failed_publish_valid _ _ _ _ _ _ (by simp) hcorr
  have h1 : InventoryReservationHandler.handle ev st0 =
      ⟨.error (.DomainError
          ("inventory reservation error: " ++ DomainError.InsufficientInventory.display)),
        ⟨[(order_id, order)], [(book_id, ⟨book_id, 2⟩)],
          [DomainEvent.InventoryReservationFailed failure], [meta.event_id], c + 1⟩⟩ := by
    simp [InventoryReservationHandler.handle, SagaState.is_processed,
      reserveOrderLines, SagaState.draw, SagaState.publish_event, hval1,
      SagaState.mark_processed, Inventory.reserve, Inventory.has_available_stock,
      List.lookup, order, ev, st0, failure, line]
  have hcancel : order.cancel ⟨c + 2, c + 2, c + 2⟩ =
      ⟨.ok (), { order with
        status := .Cancelled,
        domain_events := order.domain_events ++ [DomainEvent.OrderCancelled
          (OrderCancelled.new ⟨c + 2, c + 2, c + 2⟩ order.id order.customer_id
            order.order_lines)] }⟩ := by
    simp [Order.cancel, order]
  have hval2 : validate_event_serialization (.OrderCancelled
      (OrderCancelled.with_correlation_id ⟨c + 3, c + 3, c + 3⟩ order_id
        customer_id [line] meta.correlation_id)) = .ok () :=
    order_cancelled_publish_valid _ _ _ _ _ (by simp) hcorr
  have h2 : InventoryReservationFailureCompensationHandler.handle failure
      (InventoryReservationHandler.handle ev st0).state =
      ⟨.ok (), ⟨[(order_id, { order with
            status := .Cancelled,
            domain_events := order.domain_events ++ [DomainEvent.OrderCancelled
              (OrderCancelled.new ⟨c + 2, c + 2, c + 2⟩ order.id order.customer_id
                order.order_lines)] })],
          [(book_id, ⟨book_id, 2⟩)],
          [DomainEvent.InventoryReservationFailed failure,
            DomainEvent.OrderCancelled
              (OrderCancelled.with_correlation_id ⟨c + 3, c + 3, c + 3⟩ order_id
                customer_id [line] meta.correlation_id)],
          [meta.event_id], c + 3⟩⟩ := by
    rw [h1]
    simp [InventoryReservationFailureCompensationHandler.handle, SagaState.draw,
      SagaState.publish_event, hval2, List.lookup, failure, order, hcancel,
      assocSave, InventoryReservationFailed.with_correlation_id,
      EventMetadata.with_correlation_id, EventMetadata.with_metadata]
  refine ⟨?_, ?_, ?_, ?_⟩
  · show (InventoryReservationHandler.handle ev st0).state.published = _
    rw [h1]
  · rw [h1]
  · show ((InventoryReservationFailureCompensationHandler.handle failure
        (InventoryReservationHandler.handle ev st0).state).state.orders.lookup
          order_id).map Order.status = _
    rw [h2]
    simp [List.lookup]
  · show (InventoryReservationFailureCompensationHandler.handle failure
        (InventoryReservationHandler.handle ev st0).state).state.inventories.lookup
          book_id = _
    rw [h2]
    simp [List.lookup]

/-- Witness for C1 at a concrete world: book 3, order 1, customer 2,
correlation id 6, fresh counter 100.  The compensated order ends Cancelled. -/
theorem c1_saga_compensation_end_to_end_witness :
    ((((InventoryReservationFailureCompensationHandler.handle
        (InventoryReservationFailed.with_correlation_id ⟨101, 101, 101⟩ 1
          [⟨3, 5, Money.jpy 1000⟩]
          ("insufficient stock: " ++ DomainError.InsufficientInventory.display) 5 6)
        (InventoryReservationHandler.handle
          ⟨⟨5, 0, 6, 1, []⟩, 1, 2, [⟨3, 5, Money.jpy 1000⟩], Money.jpy 5000⟩
          ⟨[(1, ⟨1, 2, [⟨3, 5, Money.jpy 1000⟩],
              some ⟨"1234567", "Tokyo", "Shibuya", "1-1-1", none⟩, .Confirmed, []⟩)],
            [(3, ⟨3, 2⟩)], [], [], 100⟩).state).state).orders.lookup 1).map
        Order.status) = some OrderStatus.Cancelled :=
  (c1_saga_compensation_end_to_end 3 1 2 (Money.jpy 1000) (Money.jpy 5000)
    ⟨"1234567", "Tokyo", "Shibuya", "1-1-1", none⟩ ⟨5, 0, 6, 1, []⟩ [] 100
    (by decide)).2.2.1

/-- Folding a step over the hits of an option-valued selector equals folding
over the filterMap. -/
theorem foldl_optionStep_filterMap (g : α → Option β) (step : γ → β → γ)
    (xs : List α) (init : γ) :
    xs.foldl (fun c a => (g a).elim c (step c)) init
      = (xs.filterMap g).foldl step init := by
  induction xs generalizing init with
  | nil => rfl
  | cons a rest ih =>
    cases hga : g a <;> simp [List.filterMap_cons, hga, ih]

/-- One round of the dispatch loop acts on the dead-letter queue exactly as
the per-handler failure selector prescribes. -/
theorem dispatchStep_eq_handlerFailure (config : EventBusConfig)
    (handlers : List RegisteredHandler) (event : DomainEvent)
    (dlq : List DeadLetterEntry) (h : RegisteredHandler) :
    dispatchStep config handlers event dlq
        (h.name, h.supports_schema_version event.metadata.event_version)
      = (handlerFailure config handlers event h).elim dlq
          (fun p => add_to_dead_letter_queue config dlq event p.1 p.2) := by
  simp only [dispatchStep, handlerFailure]
  by_cases hs : h.supports_schema_version event.metadata.event_version
  · simp only [hs, not_true_eq_false, if_neg, if_false]
    cases hex : execute_handler_by_name config handlers h.name event with
    | ok u => simp [hex]
    | error he => simp [hex]
  · simp [hs]

/-- Claim C5.  publish returns an error exactly when the serialization
round-trip self-check fails; when the self-check passes it returns Ok, the
handler registry is untouched, and the dead-letter queue receives exactly the
entries of the per-handler failure selector folded over all matching handlers
— each matching handler is dispatched and its failure (exhausted retries or a
permanent error, including an unsupported schema version) is recorded
independently of the outcomes of the other handlers. -/
theorem c5_publish_error_semantics (bus : InMemoryEventBus) (event : DomainEvent) :
    ((bus.publish event).1 = .ok () ↔ validate_event_serialization event = .ok ())
    ∧ (bus.publish event).2.handlers = bus.handlers
    ∧ (validate_event_serialization event = .ok () →
        (bus.publish event).2.dead_letter_queue
          = ((bus.handlers.filter (fun h => h.can_handle event)).filterMap
              (handlerFailure bus.config bus.handlers event)).foldl
              (fun dlq p => add_to_dead_letter_queue bus.config dlq event p.1 p.2)
              bus.dead_letter_queue) := by
  cases hval : validate_event_serialization event with
  | error e =>
    refine ⟨?_, ?_, ?_⟩
    · simp [InMemoryEventBus.publish, hval]
    · simp [InMemoryEventBus.publish, hval]
    · intro hok; simp at hok
  | ok u =>
    cases u
    refine ⟨?_, ?_, ?_⟩
    · simp [InMemoryEventBus.publish, hval]
    · simp [InMemoryEventBus.publish, hval]
    · intro _
      simp only [InMemoryEventBus.publish, hval]
      rw [List.foldl_map]
      have hfun : (fun (dlq : List DeadLetterEntry) (h : RegisteredHandler) =>
          dispatchStep bus.config bus.handlers event dlq
            (h.name, h.supports_schema_version event.metadata.event_version))
          = fun dlq h => (handlerFailure bus.config bus.handlers event h).elim dlq
              (fun p => add_to_dead_letter_queue bus.config dlq event p.1 p.2) := by
        funext dlq h
        exact dispatchStep_eq_handlerFailure bus.config bus.handlers event dlq h
      rw [hfun, foldl_optionStep_filterMap
        (handlerFailure bus.config bus.handlers event)
        (fun dlq p => add_to_dead_letter_queue bus.config dlq event p.1 p.2)]

/-- Witness for C5: a bus with one permanently failing and one succeeding
handler; the self-check passes, publish returns Ok, and the failing handler
alone lands in the dead-letter queue. -/
theorem c5_publish_error_semantics_witness :
    ((InMemoryEventBus.mk
        [⟨"A", fun _ => true, fun _ => true, fun _ => .err (.PermanentError "boom")⟩,
          ⟨"B", fun _ => true, fun _ => true, fun _ => .ok⟩]
        [] EventBusConfig.default).publish
        (.OrderDelivered ⟨⟨1, 0, 2, 1, []⟩, 5⟩)).1 = .ok ()
    ∧ ((InMemoryEventBus.mk
        [⟨"A", fun _ => true, fun _ => true, fun _ => .err (.PermanentError "boom")⟩,
          ⟨"B", fun _ => true, fun _ => true, fun _ => .ok⟩]
        [] EventBusConfig.default).publish
        (.OrderDelivered ⟨⟨1, 0, 2, 1, []⟩, 5⟩)).2.dead_letter_queue
      = [⟨⟨.OrderDelivered ⟨⟨1, 0, 2, 1, []⟩, 5⟩, "A",
          "Permanent error (not retryable): boom", 3, false⟩⟩] :=
  ⟨(c5_publish_error_semantics _ _).1.mpr rfl, by rfl⟩

/-- One add keeps the dead-letter queue within the bound when the bound is at
least 1. -/
theorem add_to_dead_letter_queue_length_le (config : EventBusConfig)
    (hmax : 1 ≤ config.dead_letter_queue_max_size) (dlq : List DeadLetterEntry)
    (event : DomainEvent) (handler_name : String) (error : HandlerError)
    (hlen : dlq.length ≤ config.dead_letter_queue_max_size) :
    (add_to_dead_letter_queue config dlq event handler_name error).length
      ≤ config.dead_letter_queue_max_size := by
  simp only [add_to_dead_letter_queue]
  by_cases hfull : dlq.length ≥ config.dead_letter_queue_max_size
  · have hne : dlq ≠ [] := by
      intro hnil
      rw [hnil] at hfull
      simp at hfull
      omega
    simp [hfull, List.length_tail]
    omega
  · simp [hfull]
    omega

/-- Claim C6 counterexample.  With dead_letter_queue_max_size configured to 0,
adding one entry to the empty dead-letter queue produces a queue of length 1,
exceeding the configured bound. -/
theorem c6_counterexample :
    (add_to_dead_letter_queue ⟨3, 1000, 0, 30000⟩ []
        (.OrderDelivered ⟨⟨1, 0, 2, 1, []⟩, 5⟩) "H" (.TransientError "x")).length = 1
    ∧ ¬ ((add_to_dead_letter_queue ⟨3, 1000, 0, 30000⟩ []
        (.OrderDelivered ⟨⟨1, 0, 2, 1, []⟩, 5⟩) "H" (.TransientError "x")).length
          ≤ (0 : Nat)) := by
  exact ⟨rfl, by decide⟩

/-- Claim C6 (amended).  Provided the configured dead_letter_queue_max_size is
at least 1 (the default is 1000): for every sequence of entries added to the
dead-letter queue, starting from any queue within the bound (in particular the
empty one), the queue length never exceeds the bound; and an add to a full (or
overfull) queue drops the oldest entry before appending the new one.  With a
configured bound of 0 the length bound fails (see the counterexample): one
entry always remains after an add. -/
theorem c6_dead_letter_queue_bound (config : EventBusConfig)
    (hmax : 1 ≤ config.dead_letter_queue_max_size) :
    (∀ (adds : List (DomainEvent × String × HandlerError))
        (dlq : List DeadLetterEntry),
        dlq.length ≤ config.dead_letter_queue_max_size →
        (adds.foldl (fun q t => add_to_dead_letter_queue config q t.1 t.2.1 t.2.2)
            dlq).length ≤ config.dead_letter_queue_max_size)
    ∧ (∀ (dlq : List DeadLetterEntry) (event : DomainEvent)
        (handler_name : String) (error : HandlerError),
        dlq.length ≥ config.dead_letter_queue_max_size →
        add_to_dead_letter_queue config dlq event handler_name error
          = dlq.tail ++ add_to_dead_letter_queue config [] event handler_name error) := by
  constructor
  · intro adds
    induction adds with
    | nil => intro dlq hlen; simpa using hlen
    | cons t rest ih =>
      intro dlq hlen
      simpa using ih _ (add_to_dead_letter_queue_length_le config hmax dlq
        t.1 t.2.1 t.2.2 hlen)
  · intro dlq event handler_name error hfull
    simp only [add_to_dead_letter_queue]
    rw [if_pos hfull, if_neg (by simp; omega)]
    simp

/-- Witness for C6 with the default configuration: four failing adds stay
within a bound of 3 when max_retry_attempts are exhausted, and an add to a
full queue evicts the oldest entry. -/
theorem c6_dead_letter_queue_bound_witness :
    ([((DomainEvent.OrderDelivered ⟨⟨1, 0, 2, 1, []⟩, 5⟩), "A",
          HandlerError.TransientError "x"),
        ((DomainEvent.OrderDelivered ⟨⟨1, 0, 2, 1, []⟩, 5⟩), "B",
          HandlerError.TransientError "x"),
        ((DomainEvent.OrderDelivered ⟨⟨1, 0, 2, 1, []⟩, 5⟩), "C",
          HandlerError.TransientError "x"),
        ((DomainEvent.OrderDelivered ⟨⟨1, 0, 2, 1, []⟩, 5⟩), "D",
          HandlerError.TransientError "x")].foldl
        (fun q t => add_to_dead_letter_queue ⟨3, 1000, 3, 30000⟩ q t.1 t.2.1 t.2.2)
        []).length ≤ 3 :=
  (c6_dead_letter_queue_bound ⟨3, 1000, 3, 30000⟩ (by decide)).1 _ [] (by decide)
